import Mathlib

/-!
# ProcesadorConsultas: query orchestration and stats polling

A shallow embedding of the orchestration logic of the React front end:

* `QueryProcessor.handleSubmit` (`components/QueryProcessor.jsx`),
* `PerformanceComparison.handleSubmit` (`components/PerformanceComparison.jsx`),
* `OptimizationPanel.fetchOptimizationStats`, its polling effect and its view
  selection (`components/OptimizationPanel.jsx`),
* the two duration formatters, `formatDuration` of `App.jsx` and
  `formatDuration` of `components/OptimizationPanel.jsx`, and the values the
  panel shows.

JavaScript values are embedded as the type `JsVal`; component state is passed
explicitly; the callbacks `onResult` / `onResults` and the React state setters
are recorded in logs so that "what was delivered" and "which setter ran" are
observable.
-/

set_option autoImplicit false

/-! ## JavaScript values -/

/-- The JavaScript values that reach the components: what `JSON.parse` can
produce, plus `undefined`.  A number is its finite numeric value.  The payload
of `obj` is the member list of the object in order; when a key is repeated the
last member wins, as in `JSON.parse`. -/
inductive JsVal where
  | undefined : JsVal
  | null : JsVal
  | bool (b : Bool) : JsVal
  | num (q : ℚ) : JsVal
  | str (s : String) : JsVal
  | arr (items : List JsVal) : JsVal
  | obj (members : List (String × JsVal)) : JsVal

namespace JsVal

instance : Inhabited JsVal := ⟨JsVal.undefined⟩

/-- JavaScript `ToBoolean`: `undefined`, `null`, `false`, `0` and `""` are
falsy, every other value (every array and object included) is truthy. -/
def truthy : JsVal → Bool
  | undefined => false
  | null => false
  | bool b => b
  | num q => decide (q ≠ 0)
  | str s => decide (s ≠ "")
  | arr _ => true
  | obj _ => true

/-- The test `v == null` of JavaScript: `v` is `null` or `undefined`. -/
def nullish : JsVal → Bool
  | undefined => true
  | null => true
  | _ => false

/-- The expression `a || b`. -/
def or (a b : JsVal) : JsVal :=
  if a.truthy then a else b

/-- Own enumerable properties of a value, in order: the members of an object,
the indexed elements of an array, the indexed characters of a string, and none
for the other primitives. -/
def ownEntries : JsVal → List (String × JsVal)
  | obj members => members
  | arr items => items.enum.map fun p => (toString p.1, p.2)
  | str s => s.toList.enum.map fun p => (toString p.1, str (String.singleton p.2))
  | _ => []

/-- Value of the last member named `k` in a member list. -/
def lookup (k : String) : List (String × JsVal) → Option JsVal
  | [] => none
  | (k', v) :: rest => (lookup k rest).or (if k' = k then some v else none)

/-- Property read `v.k` on a value that is not `null`/`undefined`, for a key
`k` that no built-in prototype defines (all keys read by the components are of
this kind): the own property, or `undefined` when there is none. -/
def get (v : JsVal) (k : String) : JsVal :=
  (lookup k (ownEntries v)).getD undefined

/-- Property read `v.k` as a fallible operation: reading a property of `null`
or `undefined` throws a `TypeError`, rendered here as `none`. -/
def read (v : JsVal) (k : String) : Option JsVal :=
  if v.nullish then none else some (v.get k)

/-- Optional chaining `v?.k`: `undefined` when `v` is `null` or `undefined`. -/
def optGet (v : JsVal) (k : String) : JsVal :=
  if v.nullish then undefined else v.get k

/-- Property definition `o[k] = v` on a property list: an existing property
keeps its position and takes the new value, a new one is appended. -/
def setProp (props : List (String × JsVal)) (k : String) (v : JsVal) :
    List (String × JsVal) :=
  if props.any (fun p => p.1 = k) then
    props.map fun p => (p.1, if p.1 = k then v else p.2)
  else props ++ [(k, v)]

/-- The spread `...src` inside an object literal whose properties so far are
`props`: every own enumerable property of `src` is defined on the literal in
order (`null`, `undefined`, numbers and booleans contribute nothing). -/
def spread (props : List (String × JsVal)) (src : JsVal) : List (String × JsVal) :=
  (ownEntries src).foldl (fun acc p => setProp acc p.1 p.2) props

end JsVal

/-! ## The two submit handlers -/

/-- How the awaited `axios.post(...)` settles.  `resolved data` is a response
with a 2xx status whose `response.data` is `data`.  `rejected response` is a
thrown error `err` whose `err.response` is `response`: `undefined` for a
transport failure, the response object for a non-2xx status. -/
inductive AxiosResult where
  | resolved (data : JsVal) : AxiosResult
  | rejected (response : JsVal) : AxiosResult

/-- State of a submit form: the `loading` and `error` state variables and the
log of the arguments passed to the result callback, oldest first. -/
structure Form where
  loading : Bool
  error : JsVal
  delivered : List JsVal

namespace QueryProcessor

/-- The object literal `{...response.data.data, optimizationStats:
response.data.optimization_stats}` (lines 44-47). -/
def resultWithStats (data : JsVal) : JsVal :=
  JsVal.obj (JsVal.setProp (JsVal.spread [] (data.get "data")) "optimizationStats"
    (data.get "optimization_stats"))

/-- The `try` block of `handleSubmit` (lines 37-51).  `Except.error r` is a
thrown error whose `response` property is `r`; a `TypeError` raised by reading
`response.data.success` has no `response` property. -/
def tryBlock (r : AxiosResult) (s : Form) : Except JsVal Form :=
  match r with
  | AxiosResult.rejected response => Except.error response
  | AxiosResult.resolved data =>
    match data.read "success" with
    | none => Except.error JsVal.undefined
    | some success =>
      if success.truthy then
        Except.ok { s with delivered := s.delivered ++ [resultWithStats data] }
      else
        Except.ok { s with error := (data.get "error").or (JsVal.str "Error desconocido") }

/-- The handler `handleSubmit` of `QueryProcessor.jsx` (lines 31-57), as a
function of how the request settles. -/
def handleSubmit (r : AxiosResult) (s : Form) : Form :=
  let s₁ := { s with loading := true }
  let s₂ := { s₁ with error := JsVal.null }
  let s₃ :=
    match tryBlock r s₂ with
    | Except.ok s' => s'
    | Except.error response =>
      { s₂ with error :=
          ((response.optGet "data").optGet "error").or (JsVal.str "Error de conexión") }
  { s₃ with loading := false }

end QueryProcessor

namespace PerformanceComparison

/-- The `try` block of `handleSubmit` (lines 78-87). -/
def tryBlock (r : AxiosResult) (s : Form) : Except JsVal Form :=
  match r with
  | AxiosResult.rejected response => Except.error response
  | AxiosResult.resolved data =>
    match data.read "success" with
    | none => Except.error JsVal.undefined
    | some success =>
      if success.truthy then
        Except.ok { s with delivered := s.delivered ++ [data.get "results"] }
      else
        Except.ok { s with error := (data.get "error").or (JsVal.str "Error desconocido") }

/-- The handler `handleSubmit` of `PerformanceComparison.jsx` (lines 72-93). -/
def handleSubmit (r : AxiosResult) (s : Form) : Form :=
  let s₁ := { s with loading := true }
  let s₂ := { s₁ with error := JsVal.null }
  let s₃ :=
    match tryBlock r s₂ with
    | Except.ok s' => s'
    | Except.error response =>
      { s₂ with error :=
          ((response.optGet "data").optGet "error").or (JsVal.str "Error de conexión") }
  { s₃ with loading := false }

end PerformanceComparison

/-! ## The optimization panel -/

namespace OptimizationPanel

/-- The three state variables of the component (lines 5-7). -/
structure Panel where
  optimizationStats : JsVal
  isLoading : Bool
  error : JsVal

/-- The values given to `useState` (lines 5-7). -/
def Panel.initial : Panel :=
  { optimizationStats := JsVal.null, isLoading := true, error := JsVal.null }

/-- One invocation of a state setter of the component. -/
inductive SetCall where
  | setOptimizationStats (v : JsVal) : SetCall
  | setError (v : JsVal) : SetCall
  | setIsLoading (b : Bool) : SetCall

/-- Effect of one setter invocation on the state of a mounted component. -/
def SetCall.apply (c : SetCall) (p : Panel) : Panel :=
  match c with
  | SetCall.setOptimizationStats v => { p with optimizationStats := v }
  | SetCall.setError v => { p with error := v }
  | SetCall.setIsLoading b => { p with isLoading := b }

/-- Effect of a sequence of setter invocations, applied in order. -/
def applyCalls (calls : List SetCall) (p : Panel) : Panel :=
  calls.foldl (fun q c => c.apply q) p

/-- How the request of one `fetchOptimizationStats` call settles:
`rejected m`: `fetch(...)` throws an error with message `m`;
`notOk`: a response arrives whose `ok` flag is false;
`unparsable m`: `response.json()` throws an error with message `m`;
`parsed data`: the body parses to `data`. -/
inductive FetchResult where
  | rejected (message : String) : FetchResult
  | notOk : FetchResult
  | unparsable (message : String) : FetchResult
  | parsed (data : JsVal) : FetchResult

/-- The `try` block of `fetchOptimizationStats` (lines 11-24): the setter
invocations it makes, or the message of the error it throws.
`typeErrorMessage` is the message the JavaScript engine gives the `TypeError`
raised by `data.success` when `data` is `null`. -/
def tryBlock (typeErrorMessage : String) : FetchResult → Except String (List SetCall)
  | FetchResult.rejected m => Except.error m
  | FetchResult.notOk => Except.error "Error al obtener estadísticas de optimización"
  | FetchResult.unparsable m => Except.error m
  | FetchResult.parsed data =>
    match data.read "success" with
    | none => Except.error typeErrorMessage
    | some success =>
      if success.truthy then
        Except.ok [SetCall.setOptimizationStats (data.get "data"),
          SetCall.setError JsVal.null, SetCall.setIsLoading false]
      else
        Except.ok [SetCall.setError
            ((data.get "error").or (JsVal.str "Error al obtener estadísticas")),
          SetCall.setIsLoading false]

/-- The function `fetchOptimizationStats` (lines 9-29) from the point where
its request settles: the setter invocations it makes, in order. -/
def fetchOptimizationStats (typeErrorMessage : String) (r : FetchResult) : List SetCall :=
  match tryBlock typeErrorMessage r with
  | Except.ok calls => calls
  | Except.error m => [SetCall.setError (JsVal.str m), SetCall.setIsLoading false]

/-- A settlement that does not reach the success branch (lines 17-20): the
request throws, the status is not ok, the body does not parse, or the parsed
envelope has no truthy `success` flag. -/
def FetchResult.failed : FetchResult → Bool
  | FetchResult.rejected _ => true
  | FetchResult.notOk => true
  | FetchResult.unparsable _ => true
  | FetchResult.parsed data => !(data.get "success").truthy

/-- The three renderings of the component. -/
inductive View where
  | loading : View
  | error : View
  | main : View
  deriving DecidableEq, Repr

/-- Which rendering the component returns (lines 53-74). -/
def view (p : Panel) : View :=
  if p.isLoading && !p.optimizationStats.truthy then View.loading
  else if p.error.truthy && !p.optimizationStats.truthy then View.error
  else View.main

/-- Life cycle of one component instance: before its effect has run, while it
is mounted, and after the cleanup of the effect has run. -/
inductive Phase where
  | idle : Phase
  | active : Phase
  | stopped : Phase
  deriving DecidableEq, Repr

/-- One component instance together with its environment.
`calls` logs every setter invocation, oldest first; `now` is the clock in
milliseconds; `interval` is the time at which the timer made by `setInterval`
fires next, `none` when there is no timer or it has been cleared; `issued`
counts the calls of `fetchOptimizationStats` and `settled` those whose request
has settled. -/
structure Poller where
  panel : Panel
  calls : List SetCall
  phase : Phase
  now : Nat
  interval : Option Nat
  issued : Nat
  settled : Nat

/-- A component instance before it is mounted. -/
def Poller.idle : Poller :=
  { panel := Panel.initial, calls := [], phase := Phase.idle, now := 0,
    interval := none, issued := 0, settled := 0 }

/-- Number of requests in flight. -/
def Poller.inFlight (p : Poller) : Nat :=
  p.issued - p.settled

/-- What can happen to a component instance: its effect runs (`mount`), time
passes, one request in flight settles, the user presses the retry or refresh
button, the cleanup of the effect runs (`unmount`). -/
inductive Event where
  | mount : Event
  | elapse (ms : Nat) : Event
  | settle (r : FetchResult) : Event
  | click : Event
  | unmount : Event

/-- Number of times a timer of period 5000 that fires next at `due` fires
while the clock goes from `now` to `now + ms`. -/
def firings (now due ms : Nat) : Nat :=
  if now + ms < due then 0 else (now + ms - due) / 5000 + 1

/-- One step of a component instance.

* `mount` is the body of the effect (lines 33-36): one call of
  `fetchOptimizationStats`, then `setInterval(fetchOptimizationStats, 5000)`.
* `elapse ms`: the timer, if any, calls `fetchOptimizationStats` at each of
  its firings; the function starts a request and makes no setter invocation
  before the request settles (line 11).
* `settle r`: the continuation of one call in flight runs (lines 12-28); the
  setter invocations reach the state of the component while it is mounted.
* `click`: the buttons (lines 67 and 162) call `fetchOptimizationStats`; the
  loading view has no button.
* `unmount` is the cleanup (line 37): `clearInterval(interval)`. -/
def Poller.step (typeErrorMessage : String) (p : Poller) : Event → Poller
  | Event.mount =>
    match p.phase with
    | Phase.idle =>
      { p with phase := Phase.active, issued := p.issued + 1,
               interval := some (p.now + 5000) }
    | _ => p
  | Event.elapse ms =>
    match p.interval with
    | none => { p with now := p.now + ms }
    | some due =>
      { p with now := p.now + ms,
               issued := p.issued + firings p.now due ms,
               interval := some (due + 5000 * firings p.now due ms) }
  | Event.settle r =>
    if p.settled < p.issued then
      { p with settled := p.settled + 1,
               calls := p.calls ++ fetchOptimizationStats typeErrorMessage r,
               panel :=
                 match p.phase with
                 | Phase.active => applyCalls (fetchOptimizationStats typeErrorMessage r) p.panel
                 | _ => p.panel }
    else p
  | Event.click =>
    match p.phase, view p.panel with
    | Phase.active, View.loading => p
    | Phase.active, _ => { p with issued := p.issued + 1 }
    | _, _ => p
  | Event.unmount =>
    match p.phase with
    | Phase.active => { p with phase := Phase.stopped, interval := none }
    | _ => p

/-- Run a sequence of events, first event first. -/
def Poller.run (typeErrorMessage : String) (events : List Event) (p : Poller) : Poller :=
  events.foldl (Poller.step typeErrorMessage) p

/-- Total time that passes in a sequence of events. -/
def elapsed : List Event → Nat
  | [] => 0
  | Event.elapse ms :: rest => ms + elapsed rest
  | _ :: rest => elapsed rest

end OptimizationPanel

/-! ## Numbers and their renderings

A finite number is modelled by the rational value of a binary64 number.  The
quotient and the product are the exact result rounded to binary64 (nearest,
ties to even), and a rendering is a function of the exact value of the number
rendered.  The rendering of a non-integer by `Number::toString` is a parameter
`render` of the model. -/

namespace Js

/-- The numbers of JavaScript: `NaN`, the two infinities and the finite
values. -/
inductive JsNum where
  | nan : JsNum
  | inf (negative : Bool) : JsNum
  | fin (q : ℚ) : JsNum
  deriving DecidableEq

/-- The integer nearest to `y`, the even one when `y` lies halfway between two
integers. -/
def roundHalfEven (y : ℚ) : ℤ :=
  if y - ⌊y⌋ < 1 / 2 then ⌊y⌋
  else if 1 / 2 < y - ⌊y⌋ then ⌊y⌋ + 1
  else if ⌊y⌋ % 2 = 0 then ⌊y⌋
  else ⌊y⌋ + 1

/-- The spacing of the binary64 numbers around `x`: `2 ^ (e - 52)` where
`2 ^ e ≤ |x| < 2 ^ (e + 1)`, and `2 ^ (-1074)` in the subnormal range. -/
def ulp (x : ℚ) : ℚ :=
  2 ^ (max (Int.log 2 |x|) (-1022) - 52)

/-- The binary64 number nearest to the exact value `x` (ties to the even
significand); an infinity when the rounded value reaches `2 ^ 1024`. -/
def round64 (x : ℚ) : JsNum :=
  if (2 : ℚ) ^ 1024 ≤ |(roundHalfEven (x / ulp x) : ℚ) * ulp x| then JsNum.inf (decide (x < 0))
  else JsNum.fin ((roundHalfEven (x / ulp x) : ℚ) * ulp x)

/-- The number of decimal digits of `n`. -/
def decimalLength (n : ℕ) : ℕ :=
  (toString n).length

/-- The decimal `s * scale` or `(s + 1) * scale` that reads back as the number
`n`, if one of them does: the one nearer to `n` when both do, and of two equally
near ones the one with the even digits. -/
def pick (n s scale : ℕ) : Option ℕ :=
  if round64 ((s * scale : ℕ) : ℚ) = JsNum.fin n then
    if round64 (((s + 1) * scale : ℕ) : ℚ) = JsNum.fin n ∧
        ((s + 1) * scale - n < n - s * scale ∨
          ((s + 1) * scale - n = n - s * scale ∧ s % 2 = 1)) then
      some ((s + 1) * scale)
    else some (s * scale)
  else if round64 (((s + 1) * scale : ℕ) : ℚ) = JsNum.fin n then some ((s + 1) * scale)
  else none

/-- The decimal with `k` significant digits that reads back as the number `n`,
if there is one. -/
def shortestWith (n k : ℕ) : Option ℕ :=
  pick n (n / 10 ^ (decimalLength n - k)) (10 ^ (decimalLength n - k))

/-- The decimal with the fewest significant digits that reads back as the
number `n` (a binary64 number is determined by 17 significant digits). -/
def shortest (n : ℕ) : ℕ :=
  ([1, 2, 3, 4, 5, 6, 7, 8, 9, 10, 11, 12, 13, 14, 15, 16, 17].findSome?
    (shortestWith n)).getD n

/-- The conversion `Number::toString` on a natural number.  Up to `2 ^ 53` the
decimal digits of `n`; above, the fewest significant digits that read back as
`n`, followed by zeros when the decimal is below `10 ^ 21` and written in the
exponent form `1e+21`, `1.5e+21`, ... (first digit, the remaining digits,
exponent) from there on. -/
def natToString (n : ℕ) : String :=
  if n ≤ 2 ^ 53 then toString n
  else if shortest n < 10 ^ 21 then toString (shortest n)
  else
    match ((toString (shortest n)).toList.reverse.dropWhile fun c => c = '0').reverse with
    | [] => toString (shortest n)
    | [c] => String.mk [c] ++ "e+" ++ toString ((toString (shortest n)).length - 1)
    | c :: rest =>
      String.mk (c :: '.' :: rest) ++ "e+" ++ toString ((toString (shortest n)).length - 1)

/-- The conversion `Number::toString`: that of the integers, and `render` on
the other values. -/
def numberToString (render : ℚ → String) (q : ℚ) : String :=
  if q.den = 1 then (if q < 0 then "-" else "") ++ natToString q.num.natAbs
  else render q

/-- The digits of `n` hundredths with two decimal places: the integer part,
a point, the tenths digit and the hundredths digit. -/
def fixed2 (n : ℕ) : String :=
  toString (n / 100) ++ "." ++ toString (n % 100 / 10) ++ toString (n % 10)

/-- The method call `x.toFixed(2)` on a finite number: a minus sign for
negative `x`; then, for `|x|` below `10 ^ 21`, the integer number of hundredths
nearest to the exact value of `|x|` (the larger one on a tie) with two decimal
places, and for `|x|` from `10 ^ 21` on the conversion `Number::toString` of
`|x|`. -/
def toFixed2 (render : ℚ → String) (x : ℚ) : String :=
  (if x < 0 then "-" else "") ++
    (if (10 : ℚ) ^ 21 ≤ |x| then numberToString render |x|
     else fixed2 ⌊|x| * 100 + 1 / 2⌋₊)

/-- The quotient `x / c` by a positive finite constant: the exact quotient
rounded to binary64. -/
def JsNum.div (x : JsNum) (c : ℚ) : JsNum :=
  match x with
  | JsNum.fin q => round64 (q / c)
  | y => y

/-- The product `x * c` by a positive finite constant: the exact product
rounded to binary64. -/
def JsNum.mul (x : JsNum) (c : ℚ) : JsNum :=
  match x with
  | JsNum.fin q => round64 (q * c)
  | y => y

/-- The comparison `x < c` with a finite constant: false on `NaN`. -/
def JsNum.lt (x : JsNum) (c : ℚ) : Bool :=
  match x with
  | JsNum.nan => false
  | JsNum.inf negative => negative
  | JsNum.fin q => decide (q < c)

/-- The method call `x.toFixed(2)`. -/
def JsNum.toFixed2 (render : ℚ → String) (x : JsNum) : String :=
  match x with
  | JsNum.nan => "NaN"
  | JsNum.inf negative => if negative then "-Infinity" else "Infinity"
  | JsNum.fin q => Js.toFixed2 render q

/-- White space and line terminators, which `StringToNumber` strips from both
ends of a string. -/
def isStrWhiteSpace (c : Char) : Bool :=
  c.toNat ∈ [9, 10, 11, 12, 13, 32, 160, 5760, 8232, 8233, 8239, 8287, 12288, 65279]
    || (8192 ≤ c.toNat && c.toNat ≤ 8202)

/-- Value of a digit character in the given base. -/
def digitValue (base : ℕ) (c : Char) : Option ℕ :=
  (if 48 ≤ c.toNat ∧ c.toNat ≤ 57 then some (c.toNat - 48)
   else if 97 ≤ c.toNat ∧ c.toNat ≤ 102 then some (c.toNat - 87)
   else if 65 ≤ c.toNat ∧ c.toNat ≤ 70 then some (c.toNat - 55)
   else none).filter fun v => v < base

/-- Value of a non-empty sequence of digits in the given base. -/
def digitsValue (base : ℕ) : List Char → Option ℕ
  | [] => none
  | cs => cs.foldlM (fun acc c => (digitValue base c).map fun v => acc * base + v) 0

/-- Value of the exponent part of a decimal literal: nothing, or `e` / `E`
followed by an optionally signed non-empty sequence of digits. -/
def exponentValue : List Char → Option ℤ
  | [] => some 0
  | _ :: '+' :: ds => (digitsValue 10 ds).map fun v => (v : ℤ)
  | _ :: '-' :: ds => (digitsValue 10 ds).map fun v => -(v : ℤ)
  | _ :: ds => (digitsValue 10 ds).map fun v => (v : ℤ)

/-- Value of the digits before the exponent of a decimal literal: `12`, `12.`,
`12.5` or `.5`. -/
def mantissaValue (cs : List Char) : Option ℚ :=
  match cs.takeWhile (fun c => c ≠ '.'), cs.dropWhile (fun c => c ≠ '.') with
  | [], [] => none
  | [], [_] => none
  | ds, [] => (digitsValue 10 ds).map fun v => (v : ℚ)
  | ds, [_] => (digitsValue 10 ds).map fun v => (v : ℚ)
  | [], _ :: fs => (digitsValue 10 fs).map fun v => (v : ℚ) / 10 ^ fs.length
  | ds, _ :: fs =>
    (digitsValue 10 ds).bind fun v =>
      (digitsValue 10 fs).map fun w => (v : ℚ) + (w : ℚ) / 10 ^ fs.length

/-- Value of an unsigned decimal literal other than `Infinity`. -/
def unsignedDecimal (cs : List Char) : Option ℚ :=
  (mantissaValue (cs.takeWhile fun c => c ≠ 'e' ∧ c ≠ 'E')).bind fun m =>
    (exponentValue (cs.dropWhile fun c => c ≠ 'e' ∧ c ≠ 'E')).map fun e => m * 10 ^ e

/-- Value of an optionally signed decimal literal: the binary64 number nearest
to the value the digits spell. -/
def signedDecimal (negative : Bool) (cs : List Char) : JsNum :=
  if cs = "Infinity".toList then JsNum.inf negative
  else
    match unsignedDecimal cs with
    | some q => round64 (if negative then -q else q)
    | none => JsNum.nan

/-- Value of a numeric literal without surrounding white space: a binary,
octal or hexadecimal integer, or an optionally signed decimal literal; `NaN`
for any other text. -/
def strNumericLiteral : List Char → JsNum
  | '0' :: 'x' :: ds => ((digitsValue 16 ds).map fun v => round64 v).getD JsNum.nan
  | '0' :: 'X' :: ds => ((digitsValue 16 ds).map fun v => round64 v).getD JsNum.nan
  | '0' :: 'o' :: ds => ((digitsValue 8 ds).map fun v => round64 v).getD JsNum.nan
  | '0' :: 'O' :: ds => ((digitsValue 8 ds).map fun v => round64 v).getD JsNum.nan
  | '0' :: 'b' :: ds => ((digitsValue 2 ds).map fun v => round64 v).getD JsNum.nan
  | '0' :: 'B' :: ds => ((digitsValue 2 ds).map fun v => round64 v).getD JsNum.nan
  | '+' :: cs => signedDecimal false cs
  | '-' :: cs => signedDecimal true cs
  | cs => signedDecimal false cs

/-- The conversion `StringToNumber`: `0` for a string of white space, the value
of the numeric literal the string spells, `NaN` when it spells none. -/
def stringToNumber (s : String) : JsNum :=
  match ((s.toList.dropWhile isStrWhiteSpace).reverse.dropWhile isStrWhiteSpace).reverse with
  | [] => JsNum.fin 0
  | cs => strNumericLiteral cs

mutual

/-- Whether the conversion of a value to a string throws: an object parsed from
JSON that has a member named `toString` has no callable `toString` (and no
`valueOf` that yields a primitive), and an array converts its elements. -/
def toStringThrows : JsVal → Bool
  | JsVal.obj members => members.any fun p => p.1 = "toString"
  | JsVal.arr items => anyToStringThrows items
  | _ => false

/-- Whether the conversion of some value of a list to a string throws. -/
def anyToStringThrows : List JsVal → Bool
  | [] => false
  | v :: vs => toStringThrows v || anyToStringThrows vs

end

/-- The conversion `ToNumber`; `none` is a thrown `TypeError`.  An object and
an array are first converted to a string: `"[object Object]"` for an object,
the elements joined by commas for an array (`null` and `undefined` give the
empty string, a number converts to its rendering and back). -/
def toNumber : JsVal → Option JsNum
  | JsVal.undefined => some JsNum.nan
  | JsVal.null => some (JsNum.fin 0)
  | JsVal.bool b => some (JsNum.fin (if b then 1 else 0))
  | JsVal.num q => some (JsNum.fin q)
  | JsVal.str s => some (stringToNumber s)
  | JsVal.obj members => if toStringThrows (JsVal.obj members) then none else some JsNum.nan
  | JsVal.arr [] => some (JsNum.fin 0)
  | JsVal.arr [JsVal.undefined] => some (JsNum.fin 0)
  | JsVal.arr [JsVal.null] => some (JsNum.fin 0)
  | JsVal.arr [JsVal.bool _] => some JsNum.nan
  | JsVal.arr [JsVal.num q] => some (JsNum.fin q)
  | JsVal.arr [JsVal.str s] => some (stringToNumber s)
  | JsVal.arr [JsVal.obj members] =>
    if toStringThrows (JsVal.obj members) then none else some JsNum.nan
  | JsVal.arr [JsVal.arr items] => toNumber (JsVal.arr items)
  | JsVal.arr items => if anyToStringThrows items then none else some JsNum.nan

end Js

namespace App

/-- The function `formatDuration` of `App.jsx` (lines 8-25). -/
def formatDuration (render : ℚ → String) (duration : JsVal) : JsVal :=
  match duration with
  | JsVal.str s => JsVal.str s
  | JsVal.num q =>
    if q < 1000 then JsVal.str (Js.numberToString render q ++ "ns")
    else if q < 1000000 then
      JsVal.str (((Js.JsNum.fin q).div 1000).toFixed2 render ++ "μs")
    else JsVal.str (((Js.JsNum.fin q).div 1000000).toFixed2 render ++ "ms")
  | v => v

end App

namespace OptimizationPanel

/-- The function `formatDuration` of `OptimizationPanel.jsx` (lines 40-47);
`none` is a `TypeError` thrown by the conversion of `duration` to a number. -/
def formatDuration (render : ℚ → String) (duration : JsVal) : Option String :=
  if !duration.truthy then some "0ms"
  else
    match Js.toNumber duration with
    | none => none
    | some n =>
      if (n.div 1000000).lt 1 then
        some (((n.div 1000000).mul 1000).toFixed2 render ++ "μs")
      else if (n.div 1000000).lt 1000 then
        some ((n.div 1000000).toFixed2 render ++ "ms")
      else some (((n.div 1000000).div 1000).toFixed2 render ++ "s")

/-- The counters shown by the panel, as group and field name (lines 85, 89,
93, 111, 115 and 119). -/
def counterFields : List (String × String) :=
  [("optimization_stats", "TotalQueries"), ("optimization_stats", "OptimizedQueries"),
   ("optimization_stats", "CacheHits"), ("optimizer_stats", "TotalQueries"),
   ("optimizer_stats", "CacheHits"), ("optimizer_stats", "Optimizations")]

/-- The durations shown by the panel, as group and field name (lines 97, 101
and 123). -/
def durationFields : List (String × String) :=
  [("optimization_stats", "AverageOptimizationTime"),
   ("optimization_stats", "TotalOptimizationTime"), ("optimizer_stats", "AverageTime")]

/-- The expression `optimizationStats.group?.field` on a held snapshot. -/
def field (snapshot : JsVal) (p : String × String) : JsVal :=
  (snapshot.get p.1).optGet p.2

/-- The argument `optimizationStats.group?.field || 0` given to
`formatNumber`. -/
def counterArg (snapshot : JsVal) (p : String × String) : JsVal :=
  (field snapshot p).or (JsVal.num 0)

/-- The text `formatDuration(optimizationStats.group?.field)`. -/
def durationText (render : ℚ → String) (snapshot : JsVal) (p : String × String) :
    Option String :=
  formatDuration render (field snapshot p)

/-- An event obeys the response shape of the stats endpoint when a settlement
with a truthy `success` flag carries a snapshot (a truthy `data`, for instance
any object). -/
def Event.carriesSnapshot : Event → Bool
  | Event.settle (FetchResult.parsed data) =>
    !(data.get "success").truthy || (data.get "data").truthy
  | _ => true

end OptimizationPanel

/-- The response envelope of the example:
`{success: true, data: {value: "Madrid", found: true, performance: {...}}}`. -/
def madridEnvelope : JsVal :=
  JsVal.obj [("success", JsVal.bool true),
    ("data", JsVal.obj [("value", JsVal.str "Madrid"), ("found", JsVal.bool true),
      ("performance", JsVal.obj [("library_type", JsVal.str "standard"),
        ("parse_time", JsVal.num 500), ("query_time", JsVal.num 100),
        ("total_time", JsVal.num 600)])])]

/-! ## Property lists -/

namespace JsVal

theorem lookup_append (k : String) (l₁ l₂ : List (String × JsVal)) :
    lookup k (l₁ ++ l₂) = (lookup k l₂).or (lookup k l₁) := by
  induction l₁ with
  | nil => simp [lookup, Option.or_none]
  | cons p rest ih =>
    obtain ⟨k', v⟩ := p
    simp [lookup, ih, Option.or_assoc]

theorem lookup_map_replace (k k' : String) (v : JsVal) (l : List (String × JsVal)) :
    lookup k' (l.map fun p => (p.1, if p.1 = k then v else p.2)) =
      if k = k' then (if l.any (fun p => decide (p.1 = k)) then some v else none)
      else lookup k' l := by
  induction l with
  | nil => simp [lookup]
  | cons p rest ih =>
    obtain ⟨k₀, v₀⟩ := p
    simp only [List.map_cons, lookup, ih, List.any_cons, Bool.or_eq_true, decide_eq_true_eq]
    by_cases hk : k = k' <;> by_cases h₀ : k₀ = k <;> by_cases h₁ : k₀ = k' <;>
      cases h : rest.any (fun p => decide (p.1 = k)) <;> simp_all

theorem lookup_setProp (props : List (String × JsVal)) (k k' : String) (v : JsVal) :
    lookup k' (setProp props k v) = if k = k' then some v else lookup k' props := by
  unfold setProp
  cases h : props.any (fun p => decide (p.1 = k))
  · by_cases hk : k = k'
    · subst hk
      simp [lookup_append, lookup]
    · simp [lookup_append, lookup, hk]
  · simp only [if_true, lookup_map_replace, h]

theorem lookup_foldl_setProp (k : String) (l acc : List (String × JsVal)) :
    lookup k (l.foldl (fun a p => setProp a p.1 p.2) acc) =
      (lookup k l).or (lookup k acc) := by
  induction l generalizing acc with
  | nil => simp [lookup]
  | cons p rest ih =>
    obtain ⟨k₀, v₀⟩ := p
    simp only [List.foldl_cons, ih, lookup_setProp, lookup]
    cases lookup k rest <;> by_cases h₀ : k₀ = k <;> simp [h₀]

/-- A spread into an empty literal keeps the value of every property. -/
theorem get_spread (src : JsVal) (k : String) : (obj (spread [] src)).get k = src.get k := by
  show (lookup k (spread [] src)).getD undefined = (lookup k (ownEntries src)).getD undefined
  rw [spread, lookup_foldl_setProp]
  simp [lookup, Option.or_none]

theorem get_obj_setProp (props : List (String × JsVal)) (k k' : String) (v : JsVal) :
    (obj (setProp props k v)).get k' = if k = k' then v else (obj props).get k' := by
  simp only [get, ownEntries, lookup_setProp]
  by_cases hk : k = k' <;> simp [hk]

theorem truthy_or (a b : JsVal) (hb : b.truthy = true) : (a.or b).truthy = true := by
  unfold JsVal.or
  by_cases ha : a.truthy = true <;> simp [ha, hb]

theorem get_of_nullish (v : JsVal) (k : String) (h : v.nullish = true) :
    v.get k = undefined := by
  cases v <;> simp_all [nullish, get, ownEntries, lookup]

theorem not_nullish_of_truthy_get (v : JsVal) (k : String) (h : (v.get k).truthy = true) :
    v.nullish = false := by
  cases hv : v.nullish
  · rfl
  · rw [get_of_nullish v k hv] at h
    simp [truthy] at h

end JsVal

/-! ## The submit handlers: delivery and error messages -/

/-- C1. `QueryProcessor.handleSubmit`, for every response envelope whose
`success` flag is truthy, passes exactly one new value to `onResult`; that value
has the `found`, `value` and `performance` of the envelope's `data`, agrees with
`data` on every key other than `optimizationStats`, and its `optimizationStats`
is the envelope's `optimization_stats`. -/
theorem QueryProcessor.handleSubmit_delivers_combined (data : JsVal) (s : Form)
    (h : (data.get "success").truthy = true) :
    ∃ r : JsVal,
      (QueryProcessor.handleSubmit (AxiosResult.resolved data) s).delivered = s.delivered ++ [r] ∧
      r.get "found" = (data.get "data").get "found" ∧
      r.get "value" = (data.get "data").get "value" ∧
      r.get "performance" = (data.get "data").get "performance" ∧
      (∀ k : String, k ≠ "optimizationStats" → r.get k = (data.get "data").get k) ∧
      r.get "optimizationStats" = data.get "optimization_stats" := by
  have hn : data.nullish = false := JsVal.not_nullish_of_truthy_get data "success" h
  have key : ∀ k : String, k ≠ "optimizationStats" →
      (QueryProcessor.resultWithStats data).get k = (data.get "data").get k := by
    intro k hk
    unfold QueryProcessor.resultWithStats
    rw [JsVal.get_obj_setProp, if_neg (Ne.symm hk), JsVal.get_spread]
  refine ⟨QueryProcessor.resultWithStats data, ?_, key _ (by decide), key _ (by decide),
    key _ (by decide), key, ?_⟩
  · simp [QueryProcessor.handleSubmit, QueryProcessor.tryBlock, JsVal.read, hn, h]
  · unfold QueryProcessor.resultWithStats
    rw [JsVal.get_obj_setProp, if_pos rfl]

/-- C1, on the example envelope: the delivered outcome has `found = true`,
`value = "Madrid"` and `performance.total_time = 600`. -/
theorem QueryProcessor.handleSubmit_delivers_combined_witness :
    ∃ r : JsVal,
      (QueryProcessor.handleSubmit (AxiosResult.resolved madridEnvelope)
        ⟨false, JsVal.null, []⟩).delivered = [r] ∧
      r.get "found" = JsVal.bool true ∧ r.get "value" = JsVal.str "Madrid" ∧
      (r.get "performance").get "total_time" = JsVal.num 600 := by
  obtain ⟨r, hd, hf, hv, hp, -, -⟩ :=
    QueryProcessor.handleSubmit_delivers_combined madridEnvelope ⟨false, JsVal.null, []⟩ rfl
  exact ⟨r, hd, hf.trans rfl, hv.trans rfl, (congrArg (fun v => v.get "total_time") hp).trans rfl⟩

/-- C2, as stated, fails: for the envelope `{success: false, error: ""}` the
error field is supplied, yet both handlers report the generic string
`'Error desconocido'` and not the supplied string. -/
theorem handleSubmit_backend_error_counterexample :
    (JsVal.obj [("success", JsVal.bool false), ("error", JsVal.str "")]).get "error"
      = JsVal.str "" ∧
    (QueryProcessor.handleSubmit (AxiosResult.resolved
      (JsVal.obj [("success", JsVal.bool false), ("error", JsVal.str "")]))
      ⟨false, JsVal.null, []⟩).error = JsVal.str "Error desconocido" ∧
    (PerformanceComparison.handleSubmit (AxiosResult.resolved
      (JsVal.obj [("success", JsVal.bool false), ("error", JsVal.str "")]))
      ⟨false, JsVal.null, []⟩).error = JsVal.str "Error desconocido" ∧
    JsVal.str "Error desconocido" ≠ JsVal.str "" := by
  refine ⟨rfl, rfl, rfl, ?_⟩
  simp

/-- C2, amended. For every response body that is not `null`/`undefined` and
whose `success` flag is falsy, both handlers report exactly the backend's
`error` value whenever it is truthy (for a string: non-empty), report
`'Error desconocido'` when it is absent or falsy (the empty string included),
and pass nothing to `onResult` / `onResults`. -/
theorem handleSubmit_backend_error (data : JsVal) (s : Form)
    (hn : data.nullish = false) (h : (data.get "success").truthy = false) :
    ((data.get "error").truthy = true →
      (QueryProcessor.handleSubmit (AxiosResult.resolved data) s).error = data.get "error" ∧
      (PerformanceComparison.handleSubmit (AxiosResult.resolved data) s).error
        = data.get "error") ∧
    ((data.get "error").truthy = false →
      (QueryProcessor.handleSubmit (AxiosResult.resolved data) s).error
        = JsVal.str "Error desconocido" ∧
      (PerformanceComparison.handleSubmit (AxiosResult.resolved data) s).error
        = JsVal.str "Error desconocido") ∧
    (QueryProcessor.handleSubmit (AxiosResult.resolved data) s).delivered = s.delivered ∧
    (PerformanceComparison.handleSubmit (AxiosResult.resolved data) s).delivered
      = s.delivered := by
  refine ⟨fun he => ?_, fun he => ?_, ?_, ?_⟩
  · simp [QueryProcessor.handleSubmit, QueryProcessor.tryBlock,
      PerformanceComparison.handleSubmit, PerformanceComparison.tryBlock,
      JsVal.read, JsVal.or, hn, h, he]
  · simp [QueryProcessor.handleSubmit, QueryProcessor.tryBlock,
      PerformanceComparison.handleSubmit, PerformanceComparison.tryBlock,
      JsVal.read, JsVal.or, hn, h, he]
  · simp [QueryProcessor.handleSubmit, QueryProcessor.tryBlock, JsVal.read, hn, h]
  · simp [PerformanceComparison.handleSubmit, PerformanceComparison.tryBlock, JsVal.read, hn, h]

/-- C2, amended, on `{success: false, error: "invalid path"}`: the message is
`"invalid path"` and nothing is delivered. -/
theorem handleSubmit_backend_error_witness :
    (QueryProcessor.handleSubmit (AxiosResult.resolved
      (JsVal.obj [("success", JsVal.bool false), ("error", JsVal.str "invalid path")]))
      ⟨false, JsVal.null, []⟩).error = JsVal.str "invalid path" ∧
    (PerformanceComparison.handleSubmit (AxiosResult.resolved
      (JsVal.obj [("success", JsVal.bool false), ("error", JsVal.str "invalid path")]))
      ⟨false, JsVal.null, []⟩).delivered = [] :=
  have h := handleSubmit_backend_error
    (JsVal.obj [("success", JsVal.bool false), ("error", JsVal.str "invalid path")])
    ⟨false, JsVal.null, []⟩ rfl rfl
  ⟨(h.1 (by decide)).1, h.2.2.2⟩

/-- C3, as stated, fails in two ways.  A malformed 2xx body that is not `null`
(here a string, which has no `success` property) is reported by both handlers
as `'Error desconocido'`, not as `'Error de conexión'`.  And a non-2xx response
whose structured error field is present but empty is reported as
`'Error de conexión'`, not as that field. -/
theorem handleSubmit_transport_error_counterexample :
    (QueryProcessor.handleSubmit (AxiosResult.resolved (JsVal.str "<html></html>"))
      ⟨false, JsVal.null, []⟩).error = JsVal.str "Error desconocido" ∧
    (PerformanceComparison.handleSubmit (AxiosResult.resolved (JsVal.str "<html></html>"))
      ⟨false, JsVal.null, []⟩).error = JsVal.str "Error desconocido" ∧
    JsVal.str "Error desconocido" ≠ JsVal.str "Error de conexión" ∧
    ((JsVal.obj [("data", JsVal.obj [("error", JsVal.str "")])]).optGet "data").optGet "error"
      = JsVal.str "" ∧
    (QueryProcessor.handleSubmit
      (AxiosResult.rejected (JsVal.obj [("data", JsVal.obj [("error", JsVal.str "")])]))
      ⟨false, JsVal.null, []⟩).error = JsVal.str "Error de conexión" ∧
    (PerformanceComparison.handleSubmit
      (AxiosResult.rejected (JsVal.obj [("data", JsVal.obj [("error", JsVal.str "")])]))
      ⟨false, JsVal.null, []⟩).error = JsVal.str "Error de conexión" ∧
    JsVal.str "Error de conexión" ≠ JsVal.str "" := by
  refine ⟨rfl, rfl, ?_, rfl, rfl, rfl, ?_⟩
  · simp only [ne_eq, JsVal.str.injEq]
    decide
  · simp

/-- C3, amended. For every rejection of the request (transport failure: no
`err.response`; non-2xx status: `err.response` is the response) both handlers
report `err.response.data.error` when that value is truthy and
`'Error de conexión'` otherwise; a 2xx response whose body is `null` or
`undefined` is reported as `'Error de conexión'`; a 2xx body that is not
`null`/`undefined` and has a falsy `success` flag is reported as its `error`
field or else `'Error desconocido'`.  In all these cases nothing is passed to
`onResult` / `onResults`. -/
theorem handleSubmit_transport_error (response empty body : JsVal) (s : Form)
    (hempty : empty.nullish = true)
    (hbody : body.nullish = false) (hsuccess : (body.get "success").truthy = false) :
    (((response.optGet "data").optGet "error").truthy = true →
      (QueryProcessor.handleSubmit (AxiosResult.rejected response) s).error
        = (response.optGet "data").optGet "error" ∧
      (PerformanceComparison.handleSubmit (AxiosResult.rejected response) s).error
        = (response.optGet "data").optGet "error") ∧
    (((response.optGet "data").optGet "error").truthy = false →
      (QueryProcessor.handleSubmit (AxiosResult.rejected response) s).error
        = JsVal.str "Error de conexión" ∧
      (PerformanceComparison.handleSubmit (AxiosResult.rejected response) s).error
        = JsVal.str "Error de conexión") ∧
    (QueryProcessor.handleSubmit (AxiosResult.resolved empty) s).error
      = JsVal.str "Error de conexión" ∧
    (PerformanceComparison.handleSubmit (AxiosResult.resolved empty) s).error
      = JsVal.str "Error de conexión" ∧
    (QueryProcessor.handleSubmit (AxiosResult.resolved body) s).error
      = (body.get "error").or (JsVal.str "Error desconocido") ∧
    (PerformanceComparison.handleSubmit (AxiosResult.resolved body) s).error
      = (body.get "error").or (JsVal.str "Error desconocido") ∧
    (QueryProcessor.handleSubmit (AxiosResult.rejected response) s).delivered = s.delivered ∧
    (PerformanceComparison.handleSubmit (AxiosResult.rejected response) s).delivered
      = s.delivered ∧
    (QueryProcessor.handleSubmit (AxiosResult.resolved empty) s).delivered = s.delivered ∧
    (PerformanceComparison.handleSubmit (AxiosResult.resolved empty) s).delivered
      = s.delivered ∧
    (QueryProcessor.handleSubmit (AxiosResult.resolved body) s).delivered = s.delivered ∧
    (PerformanceComparison.handleSubmit (AxiosResult.resolved body) s).delivered
      = s.delivered := by
  refine ⟨fun he => ?_, fun he => ?_, ?_⟩
  · simp [QueryProcessor.handleSubmit, QueryProcessor.tryBlock,
      PerformanceComparison.handleSubmit, PerformanceComparison.tryBlock, JsVal.or, he]
  · simp [QueryProcessor.handleSubmit, QueryProcessor.tryBlock,
      PerformanceComparison.handleSubmit, PerformanceComparison.tryBlock, JsVal.or, he]
  · have hu : ((JsVal.undefined.optGet "data").optGet "error").or
        (JsVal.str "Error de conexión") = JsVal.str "Error de conexión" := rfl
    simp [QueryProcessor.handleSubmit, QueryProcessor.tryBlock,
      PerformanceComparison.handleSubmit, PerformanceComparison.tryBlock,
      JsVal.read, hempty, hbody, hsuccess, hu]

/-- C3, amended, on concrete inputs: a non-2xx response carrying
`{error: "bad request"}` is reported as `"bad request"`, and a `null` body as
`'Error de conexión'`; nothing is delivered. -/
theorem handleSubmit_transport_error_witness :
    (QueryProcessor.handleSubmit (AxiosResult.rejected
      (JsVal.obj [("status", JsVal.num 400),
        ("data", JsVal.obj [("success", JsVal.bool false),
          ("error", JsVal.str "bad request")])]))
      ⟨false, JsVal.null, []⟩).error = JsVal.str "bad request" ∧
    (PerformanceComparison.handleSubmit (AxiosResult.resolved JsVal.null)
      ⟨false, JsVal.null, []⟩).error = JsVal.str "Error de conexión" ∧
    (QueryProcessor.handleSubmit (AxiosResult.resolved (JsVal.obj []))
      ⟨false, JsVal.null, []⟩).delivered = [] :=
  have h := handleSubmit_transport_error
    (JsVal.obj [("status", JsVal.num 400),
      ("data", JsVal.obj [("success", JsVal.bool false), ("error", JsVal.str "bad request")])])
    JsVal.null (JsVal.obj []) ⟨false, JsVal.null, []⟩ rfl rfl rfl
  ⟨(h.1 (by decide)).1, h.2.2.2.1, h.2.2.2.2.2.2.2.2.2.2.1⟩

/-- C4. `PerformanceComparison.handleSubmit` is all-or-nothing: however the
request settles, either the envelope's `success` flag is truthy and exactly one
value, the envelope's `results` itself, is passed to `onResults` with no error
recorded, or nothing is passed to `onResults` and a (truthy) error is
recorded. -/
theorem PerformanceComparison.handleSubmit_all_or_nothing (r : AxiosResult) (s : Form) :
    (∃ data : JsVal, r = AxiosResult.resolved data ∧ (data.get "success").truthy = true ∧
      (PerformanceComparison.handleSubmit r s).delivered = s.delivered ++ [data.get "results"] ∧
      (PerformanceComparison.handleSubmit r s).error = JsVal.null) ∨
    ((PerformanceComparison.handleSubmit r s).delivered = s.delivered ∧
      (PerformanceComparison.handleSubmit r s).error.truthy = true) := by
  have hconn : ∀ a : JsVal, (a.or (JsVal.str "Error de conexión")).truthy = true :=
    fun a => JsVal.truthy_or a _ (by decide)
  have hunk : ∀ a : JsVal, (a.or (JsVal.str "Error desconocido")).truthy = true :=
    fun a => JsVal.truthy_or a _ (by decide)
  cases r with
  | rejected response =>
    right
    simp [PerformanceComparison.handleSubmit, PerformanceComparison.tryBlock, hconn]
  | resolved data =>
    cases hn : data.nullish
    · cases hs : (data.get "success").truthy
      · right
        simp [PerformanceComparison.handleSubmit, PerformanceComparison.tryBlock,
          JsVal.read, hn, hs, hunk]
      · left
        refine ⟨data, rfl, hs, ?_, ?_⟩ <;>
          simp [PerformanceComparison.handleSubmit, PerformanceComparison.tryBlock,
            JsVal.read, hn, hs]
    · right
      simp [PerformanceComparison.handleSubmit, PerformanceComparison.tryBlock,
        JsVal.read, hn, hconn]

/-! ## The optimization panel: one fetch -/

namespace OptimizationPanel

/-- On a failed settlement the function makes two invocations, `setError` and
`setIsLoading(false)`. -/
theorem calls_of_failed (t : String) (r : FetchResult) (h : r.failed = true) :
    ∃ e : JsVal, fetchOptimizationStats t r = [SetCall.setError e, SetCall.setIsLoading false] := by
  cases r with
  | rejected m => exact ⟨_, rfl⟩
  | notOk => exact ⟨_, rfl⟩
  | unparsable m => exact ⟨_, rfl⟩
  | parsed data =>
    have hs : (data.get "success").truthy = false := by
      simpa [FetchResult.failed] using h
    cases hn : data.nullish
    · exact ⟨(data.get "error").or (JsVal.str "Error al obtener estadísticas"),
        by simp [fetchOptimizationStats, tryBlock, JsVal.read, hn, hs]⟩
    · exact ⟨JsVal.str t, by simp [fetchOptimizationStats, tryBlock, JsVal.read, hn]⟩

/-- On a successful settlement the function makes three invocations. -/
theorem calls_of_not_failed (t : String) (r : FetchResult) (h : r.failed = false) :
    ∃ v : JsVal, fetchOptimizationStats t r
      = [SetCall.setOptimizationStats v, SetCall.setError JsVal.null,
          SetCall.setIsLoading false] := by
  cases r with
  | parsed data =>
    have hs : (data.get "success").truthy = true := by
      simpa [FetchResult.failed] using h
    have hn := JsVal.not_nullish_of_truthy_get data "success" hs
    exact ⟨data.get "data", by simp [fetchOptimizationStats, tryBlock, JsVal.read, hn, hs]⟩
  | rejected m => simp [FetchResult.failed] at h
  | notOk => simp [FetchResult.failed] at h
  | unparsable m => simp [FetchResult.failed] at h

/-- C5. For every state of the panel and every failed fetch (the request
throws, the status is not ok, the body does not parse, or the envelope has no
truthy `success` flag) `fetchOptimizationStats` makes exactly the two
invocations `setError(e)` and `setIsLoading(false)`: the held snapshot is left
exactly as it was and the message `e` is recorded, where `e` is the message of
the thrown error, or the envelope's `error` with the fallback
`'Error al obtener estadísticas'`.  From the initial state the result has the
error and no snapshot. -/
theorem fetchOptimizationStats_failure (typeErrorMessage : String) (p : Panel)
    (r : FetchResult) (h : r.failed = true) :
    ∃ e : JsVal,
      fetchOptimizationStats typeErrorMessage r
        = [SetCall.setError e, SetCall.setIsLoading false] ∧
      applyCalls (fetchOptimizationStats typeErrorMessage r) p
        = { p with error := e, isLoading := false } ∧
      (applyCalls (fetchOptimizationStats typeErrorMessage r) p).optimizationStats
        = p.optimizationStats ∧
      applyCalls (fetchOptimizationStats typeErrorMessage r) Panel.initial
        = { optimizationStats := JsVal.null, isLoading := false, error := e } ∧
      e = (match r with
        | FetchResult.rejected m => JsVal.str m
        | FetchResult.notOk => JsVal.str "Error al obtener estadísticas de optimización"
        | FetchResult.unparsable m => JsVal.str m
        | FetchResult.parsed data =>
          if data.nullish then JsVal.str typeErrorMessage
          else (data.get "error").or (JsVal.str "Error al obtener estadísticas")) := by
  cases r with
  | rejected m => exact ⟨_, rfl, rfl, rfl, rfl, rfl⟩
  | notOk => exact ⟨_, rfl, rfl, rfl, rfl, rfl⟩
  | unparsable m => exact ⟨_, rfl, rfl, rfl, rfl, rfl⟩
  | parsed data =>
    have hs : (data.get "success").truthy = false := by
      simpa [FetchResult.failed] using h
    cases hn : data.nullish
    · refine ⟨(data.get "error").or (JsVal.str "Error al obtener estadísticas"), ?_, ?_, ?_, ?_, ?_⟩ <;>
        simp [fetchOptimizationStats, tryBlock, JsVal.read, hn, hs, applyCalls,
          SetCall.apply, Panel.initial]
    · refine ⟨JsVal.str typeErrorMessage, ?_, ?_, ?_, ?_, ?_⟩ <;>
        simp [fetchOptimizationStats, tryBlock, JsVal.read, hn, applyCalls,
          SetCall.apply, Panel.initial]

/-- C5, on a panel holding a snapshot: after a response with a non-ok status
the snapshot is still the one held before. -/
theorem fetchOptimizationStats_failure_witness :
    (applyCalls (fetchOptimizationStats "data is null" FetchResult.notOk)
      { optimizationStats := JsVal.obj [("optimizer_stats", JsVal.obj [])],
        isLoading := false, error := JsVal.null }).optimizationStats
      = JsVal.obj [("optimizer_stats", JsVal.obj [])] := by
  obtain ⟨e, -, -, h, -, -⟩ := fetchOptimizationStats_failure "data is null"
    { optimizationStats := JsVal.obj [("optimizer_stats", JsVal.obj [])],
      isLoading := false, error := JsVal.null } FetchResult.notOk rfl
  exact h

/-- C6. For every state of the panel and every parsed envelope whose `success`
flag is truthy, after `fetchOptimizationStats` the snapshot is exactly the
envelope's `data` (nothing of the previous snapshot remains), the error is
`null` and the loading flag is false; when `data` is an object the snapshot is
held and the main view is selected. -/
theorem fetchOptimizationStats_success (typeErrorMessage : String) (p : Panel)
    (data : JsVal) (h : (data.get "success").truthy = true) :
    applyCalls (fetchOptimizationStats typeErrorMessage (FetchResult.parsed data)) p
      = { optimizationStats := data.get "data", isLoading := false, error := JsVal.null } ∧
    (∀ members : List (String × JsVal), data.get "data" = JsVal.obj members →
      (applyCalls (fetchOptimizationStats typeErrorMessage (FetchResult.parsed data))
        p).optimizationStats.truthy = true ∧
      view (applyCalls (fetchOptimizationStats typeErrorMessage (FetchResult.parsed data)) p)
        = View.main) := by
  have hn : data.nullish = false := JsVal.not_nullish_of_truthy_get data "success" h
  have key : applyCalls (fetchOptimizationStats typeErrorMessage (FetchResult.parsed data)) p
      = { optimizationStats := data.get "data", isLoading := false, error := JsVal.null } := by
    simp [fetchOptimizationStats, tryBlock, JsVal.read, hn, h, applyCalls, SetCall.apply]
  refine ⟨key, fun members hm => ?_⟩
  rw [key]
  simp [view, hm, JsVal.truthy]

/-- C6, on a panel in the error state and the envelope
`{success: true, data: {optimizer_stats: {}}}`. -/
theorem fetchOptimizationStats_success_witness :
    applyCalls (fetchOptimizationStats "data is null" (FetchResult.parsed
      (JsVal.obj [("success", JsVal.bool true),
        ("data", JsVal.obj [("optimizer_stats", JsVal.obj [])])])))
      { optimizationStats := JsVal.null, isLoading := false, error := JsVal.str "Failed to fetch" }
      = { optimizationStats := JsVal.obj [("optimizer_stats", JsVal.obj [])],
          isLoading := false, error := JsVal.null } :=
  (fetchOptimizationStats_success "data is null"
    { optimizationStats := JsVal.null, isLoading := false, error := JsVal.str "Failed to fetch" }
    (JsVal.obj [("success", JsVal.bool true),
      ("data", JsVal.obj [("optimizer_stats", JsVal.obj [])])]) rfl).1

end OptimizationPanel

/-! ## The optimization panel: the polling life cycle -/

namespace OptimizationPanel

theorem run_cons (t : String) (e : Event) (es : List Event) (p : Poller) :
    Poller.run t (e :: es) p = Poller.run t es (Poller.step t p e) := rfl

theorem run_append (t : String) (es es' : List Event) (p : Poller) :
    Poller.run t (es ++ es') p = Poller.run t es' (Poller.run t es p) := by
  simp [Poller.run, List.foldl_append]

theorem step_unmount_active (t : String) (q : Poller) (h : q.phase = Phase.active) :
    Poller.step t q Event.unmount = { q with phase := Phase.stopped, interval := none } := by
  simp [Poller.step, h]

theorem firings_spec (now due ms : Nat) (h₁ : now < due) (h₂ : due ≤ now + 5000) :
    firings now due ms = (now + ms + 5000 - due) / 5000 ∧
    now + ms < due + 5000 * firings now due ms ∧
    due + 5000 * firings now due ms ≤ now + ms + 5000 := by
  unfold firings
  split_ifs with h <;> omega

/-- While the component stays mounted and only the timer starts fetches, the
number of fetches grows by the number of timer firings in the elapsed time. -/
theorem issued_run_active (t : String) (es : List Event) :
    ∀ (p : Poller) (due : Nat),
      (∀ e ∈ es, e ≠ Event.click ∧ e ≠ Event.unmount) →
      p.phase = Phase.active → p.interval = some due → p.now < due → due ≤ p.now + 5000 →
      (Poller.run t es p).issued = p.issued + (p.now + elapsed es + 5000 - due) / 5000 ∧
      (Poller.run t es p).phase = Phase.active := by
  induction es with
  | nil =>
    intro p due _ hp _ h₁ h₂
    refine ⟨?_, hp⟩
    simp only [Poller.run, List.foldl_nil, elapsed]
    omega
  | cons e es ih =>
    intro p due hes hp hi h₁ h₂
    have hes' : ∀ e' ∈ es, e' ≠ Event.click ∧ e' ≠ Event.unmount :=
      fun e' he' => hes e' (List.mem_cons_of_mem _ he')
    have he := hes e (List.mem_cons_self _ _)
    rw [run_cons]
    cases e with
    | mount =>
      have hs : Poller.step t p Event.mount = p := by simp [Poller.step, hp]
      rw [hs]
      exact ih p due hes' hp hi h₁ h₂
    | elapse ms =>
      obtain ⟨hf, hlo, hhi⟩ := firings_spec p.now due ms h₁ h₂
      have hs : Poller.step t p (Event.elapse ms) =
          { p with now := p.now + ms, issued := p.issued + firings p.now due ms,
                   interval := some (due + 5000 * firings p.now due ms) } := by
        simp [Poller.step, hi]
      rw [hs]
      obtain ⟨h, hph⟩ := ih
        { p with now := p.now + ms, issued := p.issued + firings p.now due ms,
                 interval := some (due + 5000 * firings p.now due ms) }
        (due + 5000 * firings p.now due ms) hes' hp rfl hlo hhi
      refine ⟨?_, hph⟩
      rw [h]
      simp only [elapsed]
      omega
    | settle r =>
      have hq : (Poller.step t p (Event.settle r)).issued = p.issued ∧
          (Poller.step t p (Event.settle r)).now = p.now ∧
          (Poller.step t p (Event.settle r)).interval = p.interval ∧
          (Poller.step t p (Event.settle r)).phase = p.phase := by
        simp only [Poller.step]
        split_ifs <;> simp
      obtain ⟨h, hph⟩ := ih (Poller.step t p (Event.settle r)) due hes'
        (hq.2.2.2.trans hp) (hq.2.2.1.trans hi) (by rw [hq.2.1]; exact h₁)
        (by rw [hq.2.1]; exact h₂)
      refine ⟨?_, hph⟩
      rw [h, hq.1, hq.2.1]
      simp only [elapsed]
    | click => exact absurd rfl he.1
    | unmount => exact absurd rfl he.2

/-- Once the cleanup has run no event starts a fetch. -/
theorem issued_run_stopped (t : String) (es : List Event) :
    ∀ p : Poller, p.phase = Phase.stopped → p.interval = none →
      (Poller.run t es p).issued = p.issued := by
  induction es with
  | nil => intro p _ _; rfl
  | cons e es ih =>
    intro p hp hi
    rw [run_cons]
    have hq : (Poller.step t p e).issued = p.issued ∧
        (Poller.step t p e).phase = Phase.stopped ∧
        (Poller.step t p e).interval = none := by
      cases e with
      | mount => simp [Poller.step, hp, hi]
      | elapse ms => simp [Poller.step, hp, hi]
      | settle r =>
        simp only [Poller.step]
        split_ifs <;> simp [hp, hi]
      | click => simp [Poller.step, hp, hi]
      | unmount => simp [Poller.step, hp, hi]
    rw [ih _ hq.2.1 hq.2.2, hq.1]

/-- C7. Polling life cycle of one component instance.  When the effect runs,
exactly one fetch is issued at once, with no time passing.  While the instance
stays mounted, the timer issues one further fetch for each 5000 ms that have
elapsed, however the passing of time is split and whatever settles in between.
After the cleanup has run, no further fetch is issued, whatever happens and
however much time passes. -/
theorem polling_lifecycle (t : String) (p : Poller) (es es' : List Event)
    (hidle : p.phase = Phase.idle)
    (hes : ∀ e ∈ es, e ≠ Event.click ∧ e ≠ Event.unmount) :
    (Poller.step t p Event.mount).issued = p.issued + 1 ∧
    (Poller.step t p Event.mount).now = p.now ∧
    (Poller.run t (Event.mount :: es) p).issued = p.issued + 1 + elapsed es / 5000 ∧
    (Poller.run t (Event.mount :: es ++ Event.unmount :: es') p).issued
      = p.issued + 1 + elapsed es / 5000 := by
  have hm : Poller.step t p Event.mount =
      { p with phase := Phase.active, issued := p.issued + 1,
               interval := some (p.now + 5000) } := by
    simp [Poller.step, hidle]
  obtain ⟨hrun, hph⟩ := issued_run_active t es (Poller.step t p Event.mount) (p.now + 5000) hes
    (by rw [hm]) (by rw [hm]) (by rw [hm]; simp) (by rw [hm])
  have hrun' : (Poller.run t (Event.mount :: es) p).issued = p.issued + 1 + elapsed es / 5000 := by
    rw [run_cons, hrun, hm]
    simp only
    omega
  refine ⟨by rw [hm], by rw [hm], hrun', ?_⟩
  rw [List.cons_append, run_cons, run_append, run_cons]
  have hu := step_unmount_active t (Poller.run t es (Poller.step t p Event.mount)) hph
  rw [issued_run_stopped t es' _ (by rw [hu]) (by rw [hu]), hu, ← run_cons]
  exact hrun'

/-- C7, from the unmounted instance: one fetch at mount, two more in 14999 ms
(split as 4999 + 1 + 9999, with a settlement in between), and none in the
100000 ms that follow the cleanup. -/
theorem polling_lifecycle_witness :
    (Poller.run "data is null"
      [Event.mount, Event.elapse 4999, Event.settle FetchResult.notOk, Event.elapse 1,
        Event.elapse 9999, Event.unmount, Event.elapse 100000] Poller.idle).issued = 3 :=
  (polling_lifecycle "data is null" Poller.idle
    [Event.elapse 4999, Event.settle FetchResult.notOk, Event.elapse 1, Event.elapse 9999]
    [Event.elapse 100000] rfl (by simp)).2.2.2

end OptimizationPanel

/-! ## The optimization panel: overlapping fetches, stop, and the error state -/

namespace OptimizationPanel

/-- C8, as stated, fails.  After mount and 5000 ms in which the first fetch
has not settled, the timer has issued a second fetch: two fetches are in
flight.  And when the first fetch settles after 3000 ms, the second one is
issued at 5000 ms, 2000 ms after the settlement and not 5000 ms after it. -/
theorem sequential_fetches_counterexample :
    (Poller.run "data is null" [Event.mount, Event.elapse 5000] Poller.idle).settled = 0 ∧
    (Poller.run "data is null" [Event.mount, Event.elapse 5000] Poller.idle).inFlight = 2 ∧
    ¬ (Poller.run "data is null" [Event.mount, Event.elapse 5000] Poller.idle).inFlight ≤ 1 ∧
    (Poller.run "data is null"
      [Event.mount, Event.elapse 3000, Event.settle FetchResult.notOk] Poller.idle).issued = 1 ∧
    (Poller.run "data is null"
      [Event.mount, Event.elapse 3000, Event.settle FetchResult.notOk, Event.elapse 2000]
      Poller.idle).issued = 2 := by
  decide

/-- C8, amended. The timer fires on its fixed cadence whether or not earlier
fetches have settled: when time passes up to or beyond the next firing, the
number of fetches in flight grows by the number of firings, which is at least
one; after that it is at most one exactly when no fetch was pending and the
timer fired once. -/
theorem timer_fires_regardless_of_pending (t : String) (p : Poller) (due ms : Nat)
    (hi : p.interval = some due) (hs : p.settled ≤ p.issued)
    (hdue : due ≤ p.now + ms) :
    (Poller.step t p (Event.elapse ms)).inFlight = p.inFlight + firings p.now due ms ∧
    1 ≤ firings p.now due ms ∧
    ((Poller.step t p (Event.elapse ms)).inFlight ≤ 1 ↔
      p.inFlight = 0 ∧ firings p.now due ms = 1) := by
  have hstep : (Poller.step t p (Event.elapse ms)).inFlight
      = p.issued + firings p.now due ms - p.settled := by
    simp [Poller.step, hi, Poller.inFlight]
  have hf : 1 ≤ firings p.now due ms := by
    unfold firings
    split_ifs <;> omega
  rw [hstep]
  unfold Poller.inFlight
  refine ⟨by omega, hf, ?_⟩
  constructor
  · intro h
    omega
  · intro h
    omega

/-- C8, amended, right after mount: the firing at 5000 ms finds the first
fetch pending and leaves two fetches in flight. -/
theorem timer_fires_regardless_of_pending_witness :
    (Poller.step "data is null" (Poller.step "data is null" Poller.idle Event.mount)
      (Event.elapse 5000)).inFlight
      = (Poller.step "data is null" Poller.idle Event.mount).inFlight
        + firings (Poller.step "data is null" Poller.idle Event.mount).now 5000 5000 :=
  (timer_fires_regardless_of_pending "data is null"
    (Poller.step "data is null" Poller.idle Event.mount) 5000 5000 rfl (by decide)
    (by decide)).1

/-- C9, as stated, fails.  A fetch in flight when the cleanup runs still makes
its setter invocations when it settles: three on success, two on failure. -/
theorem stopped_fetch_counterexample :
    (Poller.run "data is null" [Event.mount, Event.unmount] Poller.idle).phase
      = Phase.stopped ∧
    (Poller.run "data is null" [Event.mount, Event.unmount] Poller.idle).calls = [] ∧
    (Poller.run "data is null" [Event.mount, Event.unmount,
      Event.settle (FetchResult.parsed
        (JsVal.obj [("success", JsVal.bool true), ("data", JsVal.obj [])]))]
      Poller.idle).calls
      = [SetCall.setOptimizationStats (JsVal.obj []), SetCall.setError JsVal.null,
          SetCall.setIsLoading false] ∧
    (Poller.run "data is null" [Event.mount, Event.unmount,
      Event.settle (FetchResult.rejected "Failed to fetch")] Poller.idle).calls
      = [SetCall.setError (JsVal.str "Failed to fetch"), SetCall.setIsLoading false] :=
  ⟨rfl, rfl, rfl, rfl⟩

/-- C9, amended. When the cleanup runs the timer is cleared, and the settling
of a fetch that was in flight starts no further fetch; but its result is not
discarded by `fetchOptimizationStats`: for every outcome the function still
invokes `setError` and `setIsLoading(false)`, and `setOptimizationStats` as
well when the fetch succeeds. -/
theorem stopped_fetch_still_invokes_setters (t : String) (p : Poller) (r : FetchResult)
    (hp : p.phase = Phase.active) (hf : p.settled < p.issued) :
    (Poller.step t p Event.unmount).phase = Phase.stopped ∧
    (Poller.step t p Event.unmount).interval = none ∧
    (Poller.step t (Poller.step t p Event.unmount) (Event.settle r)).issued = p.issued ∧
    (Poller.step t (Poller.step t p Event.unmount) (Event.settle r)).calls
      = p.calls ++ fetchOptimizationStats t r ∧
    (∃ e : JsVal, SetCall.setError e ∈ fetchOptimizationStats t r) ∧
    SetCall.setIsLoading false ∈ fetchOptimizationStats t r ∧
    (r.failed = false →
      ∃ v : JsVal, SetCall.setOptimizationStats v ∈ fetchOptimizationStats t r) := by
  rw [step_unmount_active t p hp]
  refine ⟨rfl, rfl, ?_, ?_, ?_, ?_, ?_⟩
  · simp [Poller.step, hf]
  · simp [Poller.step, hf]
  · cases hr : r.failed
    · obtain ⟨v, hv⟩ := calls_of_not_failed t r hr
      exact ⟨JsVal.null, by rw [hv]; simp⟩
    · obtain ⟨e, he⟩ := calls_of_failed t r hr
      exact ⟨e, by rw [he]; simp⟩
  · cases hr : r.failed
    · obtain ⟨v, hv⟩ := calls_of_not_failed t r hr
      rw [hv]
      simp
    · obtain ⟨e, he⟩ := calls_of_failed t r hr
      rw [he]
      simp
  · intro hr
    obtain ⟨v, hv⟩ := calls_of_not_failed t r hr
    exact ⟨v, by rw [hv]; simp⟩

/-- C9, amended, on the instance stopped right after mount: the settling of
its first fetch with a non-ok status appends setter invocations to the log. -/
theorem stopped_fetch_still_invokes_setters_witness :
    (Poller.step "data is null"
      (Poller.step "data is null" (Poller.step "data is null" Poller.idle Event.mount)
        Event.unmount)
      (Event.settle FetchResult.notOk)).calls
      = (Poller.step "data is null" Poller.idle Event.mount).calls
        ++ fetchOptimizationStats "data is null" FetchResult.notOk :=
  (stopped_fetch_still_invokes_setters "data is null"
    (Poller.step "data is null" Poller.idle Event.mount) FetchResult.notOk rfl
    (by decide)).2.2.2.1

/-- C10, as stated, fails.  After a failed first fetch the panel is in the
error state; when the timer then fires, or the retry button is pressed, a fetch
is in flight while the loading flag is still false and the error view is still
selected. -/
theorem error_state_refetch_counterexample :
    view (Poller.run "data is null"
      [Event.mount, Event.settle (FetchResult.rejected "Failed to fetch")]
      Poller.idle).panel = View.error ∧
    (Poller.run "data is null"
      [Event.mount, Event.settle (FetchResult.rejected "Failed to fetch"), Event.elapse 5000]
      Poller.idle).inFlight = 1 ∧
    (Poller.run "data is null"
      [Event.mount, Event.settle (FetchResult.rejected "Failed to fetch"), Event.elapse 5000]
      Poller.idle).panel.isLoading = false ∧
    view (Poller.run "data is null"
      [Event.mount, Event.settle (FetchResult.rejected "Failed to fetch"), Event.elapse 5000]
      Poller.idle).panel = View.error ∧
    (Poller.run "data is null"
      [Event.mount, Event.settle (FetchResult.rejected "Failed to fetch"), Event.click]
      Poller.idle).inFlight = 1 ∧
    (Poller.run "data is null"
      [Event.mount, Event.settle (FetchResult.rejected "Failed to fetch"), Event.click]
      Poller.idle).panel.isLoading = false ∧
    view (Poller.run "data is null"
      [Event.mount, Event.settle (FetchResult.rejected "Failed to fetch"), Event.click]
      Poller.idle).panel = View.error := by
  decide

/-- C10, amended. From the error state of a mounted panel (error view
selected, hence loading flag false), a press of the retry button issues one
fetch and a firing of the timer issues its fetches, but neither changes the
state of the panel: while the new fetch is in flight the loading flag is still
false and the error view is still selected. -/
theorem error_state_refetch (t : String) (p : Poller) (due ms : Nat)
    (hp : p.phase = Phase.active) (hv : view p.panel = View.error)
    (hi : p.interval = some due) :
    p.panel.isLoading = false ∧
    (Poller.step t p Event.click).issued = p.issued + 1 ∧
    (Poller.step t p Event.click).settled = p.settled ∧
    (Poller.step t p Event.click).panel = p.panel ∧
    view (Poller.step t p Event.click).panel = View.error ∧
    (Poller.step t p (Event.elapse ms)).issued = p.issued + firings p.now due ms ∧
    (Poller.step t p (Event.elapse ms)).settled = p.settled ∧
    (Poller.step t p (Event.elapse ms)).panel = p.panel ∧
    view (Poller.step t p (Event.elapse ms)).panel = View.error := by
  have hload : p.panel.isLoading = false := by
    unfold view at hv
    cases hl : p.panel.isLoading
    · rfl
    · cases hs : p.panel.optimizationStats.truthy <;> simp [hl, hs] at hv
  have hclick : Poller.step t p Event.click = { p with issued := p.issued + 1 } := by
    simp [Poller.step, hp, hv]
  have helapse : Poller.step t p (Event.elapse ms) =
      { p with now := p.now + ms, issued := p.issued + firings p.now due ms,
               interval := some (due + 5000 * firings p.now due ms) } := by
    simp [Poller.step, hi]
  rw [hclick, helapse]
  exact ⟨hload, rfl, rfl, rfl, hv, rfl, rfl, rfl, hv⟩

/-- C10, amended, on the panel whose first fetch has failed: after the firing
at 5000 ms the state of the panel is the one before it. -/
theorem error_state_refetch_witness :
    (Poller.step "data is null"
      (Poller.run "data is null"
        [Event.mount, Event.settle (FetchResult.rejected "Failed to fetch")] Poller.idle)
      (Event.elapse 5000)).panel
      = (Poller.run "data is null"
        [Event.mount, Event.settle (FetchResult.rejected "Failed to fetch")]
        Poller.idle).panel :=
  (error_state_refetch "data is null"
    (Poller.run "data is null"
      [Event.mount, Event.settle (FetchResult.rejected "Failed to fetch")] Poller.idle)
    5000 5000 rfl (by decide) rfl).2.2.2.2.2.2.2.1

end OptimizationPanel

/-! ## The optimization panel: the snapshot is never lost -/

namespace OptimizationPanel

theorem view_of_truthy (p : Panel) (h : p.optimizationStats.truthy = true) :
    view p = View.main := by
  simp [view, h]

theorem applyCalls_fetch_truthy (t : String) (r : FetchResult) (p : Panel)
    (h : p.optimizationStats.truthy = true)
    (hr : (Event.settle r).carriesSnapshot = true) :
    (applyCalls (fetchOptimizationStats t r) p).optimizationStats.truthy = true := by
  cases hf : r.failed
  · cases r with
    | parsed data =>
      have hs : (data.get "success").truthy = true := by
        simpa [FetchResult.failed] using hf
      have hn := JsVal.not_nullish_of_truthy_get data "success" hs
      have hd : (data.get "data").truthy = true := by
        simpa [Event.carriesSnapshot, hs] using hr
      simpa [fetchOptimizationStats, tryBlock, JsVal.read, hn, hs, applyCalls,
        SetCall.apply] using hd
    | rejected m => simp [FetchResult.failed] at hf
    | notOk => simp [FetchResult.failed] at hf
    | unparsable m => simp [FetchResult.failed] at hf
  · obtain ⟨e, he⟩ := calls_of_failed t r hf
    rw [he]
    simpa [applyCalls, SetCall.apply] using h

theorem step_keeps_snapshot (t : String) (p : Poller) (e : Event)
    (h : p.panel.optimizationStats.truthy = true) (he : e.carriesSnapshot = true) :
    (Poller.step t p e).panel.optimizationStats.truthy = true := by
  cases e with
  | mount =>
    simp only [Poller.step]
    split <;> exact h
  | elapse ms =>
    simp only [Poller.step]
    split <;> exact h
  | settle r =>
    simp only [Poller.step]
    split_ifs
    · cases hp : p.phase <;> simp only [] <;>
        first
        | exact applyCalls_fetch_truthy t r p.panel h he
        | exact h
    · exact h
  | click =>
    simp only [Poller.step]
    split <;> exact h
  | unmount =>
    simp only [Poller.step]
    split <;> exact h

/-- C11, as stated, fails.  The first fetch delivers a snapshot, and the panel
holds it and selects the main view.  The second fetch delivers the envelope
`{success: true}`, which has no `data`: line 18 stores `undefined`, so no
snapshot is held any more.  The third fetch is answered with an error status:
the error is recorded, and the panel selects the error view. -/
theorem snapshot_lost_counterexample :
    (Poller.run "data is null"
      [Event.mount, Event.settle (FetchResult.parsed
        (JsVal.obj [("success", JsVal.bool true),
          ("data", JsVal.obj [("optimizer_stats", JsVal.obj [])])]))]
      Poller.idle).panel.optimizationStats.truthy = true ∧
    view (Poller.run "data is null"
      [Event.mount, Event.settle (FetchResult.parsed
        (JsVal.obj [("success", JsVal.bool true),
          ("data", JsVal.obj [("optimizer_stats", JsVal.obj [])])]))]
      Poller.idle).panel = View.main ∧
    (Poller.run "data is null"
      [Event.mount, Event.settle (FetchResult.parsed
        (JsVal.obj [("success", JsVal.bool true),
          ("data", JsVal.obj [("optimizer_stats", JsVal.obj [])])])),
        Event.elapse 5000, Event.settle (FetchResult.parsed
          (JsVal.obj [("success", JsVal.bool true)]))]
      Poller.idle).panel.optimizationStats.truthy = false ∧
    view (Poller.run "data is null"
      [Event.mount, Event.settle (FetchResult.parsed
        (JsVal.obj [("success", JsVal.bool true),
          ("data", JsVal.obj [("optimizer_stats", JsVal.obj [])])])),
        Event.elapse 5000, Event.settle (FetchResult.parsed
          (JsVal.obj [("success", JsVal.bool true)])),
        Event.elapse 5000, Event.settle FetchResult.notOk]
      Poller.idle).panel = View.error :=
  ⟨rfl, rfl, rfl, rfl⟩

/-- C11, amended. Invariant of the panel over every sequence of events (timer
firings, clicks, settlements of fetches with any results in any order) in which
every successful envelope carries a snapshot: once a snapshot is held, it stays
held, and the main view stays selected; neither the loading view nor the error
view is selected again. -/
theorem snapshot_never_lost (t : String) (es : List Event) (p : Poller)
    (h : p.panel.optimizationStats.truthy = true)
    (hes : ∀ e ∈ es, e.carriesSnapshot = true) :
    (Poller.run t es p).panel.optimizationStats.truthy = true ∧
    view (Poller.run t es p).panel = View.main ∧
    view (Poller.run t es p).panel ≠ View.loading ∧
    view (Poller.run t es p).panel ≠ View.error := by
  have key : (Poller.run t es p).panel.optimizationStats.truthy = true := by
    induction es generalizing p with
    | nil => exact h
    | cons e es ih =>
      rw [run_cons]
      exact ih (Poller.step t p e)
        (step_keeps_snapshot t p e h (hes e (List.mem_cons_self _ _)))
        (fun e' he' => hes e' (List.mem_cons_of_mem _ he'))
  have hv := view_of_truthy _ key
  refine ⟨key, hv, ?_, ?_⟩ <;> rw [hv] <;> decide

/-- C11, amended, on the panel that has obtained a snapshot at its first
fetch: after a failed fetch, a second snapshot and two more failures the main
view is selected and the snapshot held is the second one. -/
theorem snapshot_never_lost_witness :
    view (Poller.run "data is null"
      [Event.elapse 5000, Event.settle (FetchResult.rejected "Failed to fetch"),
        Event.click, Event.settle (FetchResult.parsed
          (JsVal.obj [("success", JsVal.bool true), ("data", JsVal.obj [])])),
        Event.elapse 5000, Event.settle FetchResult.notOk,
        Event.elapse 5000, Event.settle (FetchResult.parsed JsVal.null)]
      (Poller.run "data is null"
        [Event.mount, Event.settle (FetchResult.parsed
          (JsVal.obj [("success", JsVal.bool true),
            ("data", JsVal.obj [("optimizer_stats", JsVal.obj [])])]))]
        Poller.idle)).panel = View.main :=
  (snapshot_never_lost "data is null"
    [Event.elapse 5000, Event.settle (FetchResult.rejected "Failed to fetch"),
      Event.click, Event.settle (FetchResult.parsed
        (JsVal.obj [("success", JsVal.bool true), ("data", JsVal.obj [])])),
      Event.elapse 5000, Event.settle FetchResult.notOk,
      Event.elapse 5000, Event.settle (FetchResult.parsed JsVal.null)]
    (Poller.run "data is null"
      [Event.mount, Event.settle (FetchResult.parsed
        (JsVal.obj [("success", JsVal.bool true),
          ("data", JsVal.obj [("optimizer_stats", JsVal.obj [])])]))]
      Poller.idle) rfl (by decide)).2.1

end OptimizationPanel

/-! ## Renderings of numbers -/

namespace Js

theorem isDigit_digitChar : ∀ m : ℕ, m < 10 → (Nat.digitChar m).isDigit = true := by
  decide

theorem isDigit_of_mem_toDigitsCore (fuel : ℕ) :
    ∀ (n : ℕ) (ds : List Char), (∀ c ∈ ds, c.isDigit = true) →
      ∀ c ∈ Nat.toDigitsCore 10 fuel n ds, c.isDigit = true := by
  induction fuel with
  | zero => intro n ds hds c hc; exact hds c hc
  | succ fuel ih =>
    intro n ds hds c hc
    have hcons : ∀ c' ∈ Nat.digitChar (n % 10) :: ds, c'.isDigit = true := by
      intro c' hc'
      rcases List.mem_cons.mp hc' with rfl | h
      · exact isDigit_digitChar _ (Nat.mod_lt _ (by decide))
      · exact hds c' h
    simp only [Nat.toDigitsCore] at hc
    split_ifs at hc
    · exact hcons c hc
    · exact ih _ _ hcons c hc

/-- The decimal rendering of a natural number consists of digits. -/
theorem isDigit_of_mem_toString (n : ℕ) : ∀ c ∈ (toString n).toList, c.isDigit = true :=
  isDigit_of_mem_toDigitsCore (n + 1) n [] (by simp)

theorem numberToString_natCast (render : ℚ → String) (n : ℕ) :
    numberToString render (n : ℚ) = natToString n := by
  have h : ¬ ((n : ℚ) < 0) := not_lt.mpr (Nat.cast_nonneg n)
  simp [numberToString, h]

theorem natToString_of_le (n : ℕ) (h : n ≤ 2 ^ 53) : natToString n = toString n := by
  rw [natToString, if_pos h]

theorem empty_append (s : String) : "" ++ s = s := by
  apply String.ext
  simp

theorem toFixed2_of_nonneg (render : ℚ → String) (x : ℚ) (h₀ : 0 ≤ x) (h : x < 10 ^ 21) :
    toFixed2 render x = fixed2 ⌊x * 100 + 1 / 2⌋₊ := by
  have h₁ : ¬ x < 0 := not_lt.mpr h₀
  have h₂ : ¬ (10 : ℚ) ^ 21 ≤ |x| := by
    rw [abs_of_nonneg h₀]
    exact not_le.mpr h
  rw [toFixed2, if_neg h₁, if_neg h₂, abs_of_nonneg h₀, empty_append]

/-- The number of hundredths chosen by `toFixed2` is a nearest one. -/
theorem abs_hundredths_sub_le (x : ℚ) (h₀ : 0 ≤ x) :
    |((⌊x * 100 + 1 / 2⌋₊ : ℕ) : ℚ) / 100 - x| ≤ 1 / 200 := by
  have hpos : (0 : ℚ) ≤ x * 100 + 1 / 2 := by positivity
  have hle := Nat.floor_le hpos
  have hlt := Nat.lt_floor_add_one (x * 100 + 1 / 2)
  rw [abs_le]
  constructor <;> linarith

/-- The number of hundredths chosen by `toFixed2`, from its two bounds. -/
theorem toFixed2_eq (render : ℚ → String) (x : ℚ) (n : ℕ) (h₀ : 0 ≤ x) (h : x < 10 ^ 21)
    (h₁ : (n : ℚ) ≤ x * 100 + 1 / 2) (h₂ : x * 100 + 1 / 2 < n + 1) :
    toFixed2 render x = fixed2 n := by
  rw [toFixed2_of_nonneg render x h₀ h,
    (Nat.floor_eq_iff (by positivity : (0 : ℚ) ≤ x * 100 + 1 / 2)).mpr ⟨h₁, h₂⟩]

theorem toFixed2_natCast_of_ge (render : ℚ → String) (n : ℕ) (h : 10 ^ 21 ≤ n) :
    toFixed2 render (n : ℚ) = natToString n := by
  have h₀ : (0 : ℚ) ≤ (n : ℚ) := Nat.cast_nonneg n
  have h₁ : ¬ (n : ℚ) < 0 := not_lt.mpr h₀
  have h₂ : (10 : ℚ) ^ 21 ≤ |(n : ℚ)| := by
    rw [abs_of_nonneg h₀]
    exact_mod_cast h
  rw [toFixed2, if_neg h₁, if_pos h₂, abs_of_nonneg h₀, empty_append, numberToString_natCast]

/-! ### Rounding to binary64 -/

theorem roundHalfEven_near (y : ℚ) : |(roundHalfEven y : ℚ) - y| ≤ 1 / 2 := by
  have h₁ := Int.floor_le y
  have h₂ := Int.lt_floor_add_one y
  unfold roundHalfEven
  split_ifs with a b c <;> push_cast <;> rw [abs_le] <;> constructor <;> linarith

theorem roundHalfEven_eq (y : ℚ) (m : ℤ) (h : |y - m| < 1 / 2) : roundHalfEven y = m := by
  rw [abs_lt] at h
  have h₁ := Int.floor_le y
  have h₂ := Int.lt_floor_add_one y
  unfold roundHalfEven
  by_cases hm : (m : ℚ) ≤ y
  · have hf : ⌊y⌋ = m := Int.floor_eq_iff.mpr ⟨hm, by linarith⟩
    rw [hf, if_pos (by linarith)]
  · have hf : ⌊y⌋ = m - 1 :=
      Int.floor_eq_iff.mpr ⟨by push_cast; linarith, by push_cast; linarith⟩
    rw [hf]
    push_cast
    rw [if_neg (by linarith), if_pos (by linarith)]
    ring

theorem log_eq_of_bounds (x : ℚ) (e : ℤ) (h₁ : (2 : ℚ) ^ e ≤ x) (h₂ : x < (2 : ℚ) ^ (e + 1)) :
    Int.log 2 x = e := by
  have hx : 0 < x := lt_of_lt_of_le (zpow_pos (by norm_num) e) h₁
  have a : e ≤ Int.log 2 x :=
    (Int.zpow_le_iff_le_log (by norm_num) hx).mp (by exact_mod_cast h₁)
  have b : Int.log 2 x < e + 1 :=
    (Int.lt_zpow_iff_log_lt (by norm_num) hx).mp (by exact_mod_cast h₂)
  omega

theorem ulp_eq (x : ℚ) (e : ℤ) (h₁ : (2 : ℚ) ^ e ≤ x) (h₂ : x < (2 : ℚ) ^ (e + 1))
    (he : -1022 ≤ e) : ulp x = 2 ^ (e - 52) := by
  have hx : 0 < x := lt_of_lt_of_le (zpow_pos (by norm_num) e) h₁
  rw [ulp, abs_of_pos hx, log_eq_of_bounds x e h₁ h₂, max_eq_left he]

/-- The binary64 number nearest to `x`, from the exponent `e` of `x` and an
integer `m` within a half of the scaled value. -/
theorem round64_eval (x : ℚ) (e m : ℤ) (h₁ : (2 : ℚ) ^ e ≤ x) (h₂ : x < (2 : ℚ) ^ (e + 1))
    (he : -1022 ≤ e) (hm : |x / 2 ^ (e - 52) - m| < 1 / 2)
    (hfin : |(m : ℚ) * 2 ^ (e - 52)| < 2 ^ 1024) :
    round64 x = JsNum.fin ((m : ℚ) * 2 ^ (e - 52)) := by
  rw [round64, ulp_eq x e h₁ h₂ he, roundHalfEven_eq _ m hm, if_neg (not_le.mpr hfin)]

/-- The binary64 number nearest to `x` is `R`, from the exponent `e` of `x` and
the integer significand `m` of `R`. -/
theorem round64_of (x R : ℚ) (e m : ℤ) (h₁ : (2 : ℚ) ^ e ≤ x) (h₂ : x < (2 : ℚ) ^ (e + 1))
    (he : -1022 ≤ e) (hR : R = (m : ℚ) * 2 ^ (e - 52)) (hm : |x / 2 ^ (e - 52) - m| < 1 / 2)
    (hfin : |R| < 2 ^ 1024) :
    round64 x = JsNum.fin R := by
  subst hR
  exact round64_eval x e m h₁ h₂ he hm hfin

/-- The binary64 number nearest to a normal positive `x` below `2 ^ K` is finite
and within `2 ^ (K - 54)` of `x`. -/
theorem round64_near (x : ℚ) (K : ℕ) (h₀ : 1 / 2 ^ 1022 ≤ x) (hK : x < 2 ^ K)
    (hK' : K ≤ 1023) :
    ∃ r : ℚ, round64 x = JsNum.fin r ∧ |r - x| ≤ 2 ^ K / 2 ^ 54 := by
  have hx : 0 < x := lt_of_lt_of_le (by positivity) h₀
  have h₁ : (2 : ℚ) ^ Int.log 2 x ≤ x := by
    have := Int.zpow_log_le_self (b := 2) (by norm_num) hx
    exact_mod_cast this
  have h₂ : x < (2 : ℚ) ^ (Int.log 2 x + 1) := by
    have := Int.lt_zpow_succ_log_self (b := 2) (by norm_num) x
    exact_mod_cast this
  have hlo : -1022 ≤ Int.log 2 x := by
    apply (Int.zpow_le_iff_le_log (b := 2) (by norm_num) hx).mp
    have e : ((2 : ℕ) : ℚ) ^ (-1022 : ℤ) = 1 / 2 ^ 1022 := by
      rw [zpow_neg, one_div]
      norm_cast
    rw [e]
    exact h₀
  have hhi : Int.log 2 x < (K : ℤ) := by
    apply (Int.lt_zpow_iff_log_lt (b := 2) (by norm_num) hx).mp
    rw [zpow_natCast]
    exact_mod_cast hK
  have hu := ulp_eq x _ h₁ h₂ hlo
  have hupos : (0 : ℚ) < 2 ^ (Int.log 2 x - 52) := zpow_pos (by norm_num) _
  have hule : (2 : ℚ) ^ (Int.log 2 x - 52) ≤ 2 ^ K / 2 ^ 53 := by
    have e2 : (2 : ℚ) ^ ((K : ℤ) - 53) = 2 ^ K / 2 ^ 53 := by
      rw [zpow_sub₀ (by norm_num), zpow_natCast]
      norm_cast
    rw [← e2]
    exact zpow_le_zpow_right₀ (by norm_num) (by omega)
  have hnear := roundHalfEven_near (x / 2 ^ (Int.log 2 x - 52))
  have herr : |(roundHalfEven (x / 2 ^ (Int.log 2 x - 52)) : ℚ) * 2 ^ (Int.log 2 x - 52) - x|
      ≤ 2 ^ K / 2 ^ 54 := by
    have e : (roundHalfEven (x / 2 ^ (Int.log 2 x - 52)) : ℚ) * 2 ^ (Int.log 2 x - 52) - x
        = ((roundHalfEven (x / 2 ^ (Int.log 2 x - 52)) : ℚ) - x / 2 ^ (Int.log 2 x - 52))
          * 2 ^ (Int.log 2 x - 52) := by
      field_simp
    rw [e, abs_mul, abs_of_pos hupos]
    calc _ ≤ 1 / 2 * (2 : ℚ) ^ (Int.log 2 x - 52) :=
          mul_le_mul_of_nonneg_right hnear hupos.le
      _ ≤ 1 / 2 * (2 ^ K / 2 ^ 53) := by linarith
      _ = 2 ^ K / 2 ^ 54 := by ring
  refine ⟨_, ?_, herr⟩
  rw [round64, hu, if_neg]
  rw [not_le]
  have hKb : (2 : ℚ) ^ K ≤ 2 ^ 1023 := pow_le_pow_right₀ (by norm_num) hK'
  have hb := (abs_le.mp herr).2
  have hb' := (abs_le.mp herr).1
  rw [abs_lt]
  have h54 : (2 : ℚ) ^ K / 2 ^ 54 ≤ 2 ^ K := div_le_self (by positivity) (by norm_num)
  have e1024 : (2 : ℚ) ^ 1024 = 2 * 2 ^ 1023 := by norm_num
  have hKpos : (0 : ℚ) < 2 ^ K := by positivity
  constructor <;> linarith

/-- The rounded value of a positive `x` below `2 ^ K` and its rendering with
two decimal places: the number of hundredths written is a nearest one of the
rounded value. -/
theorem round64_fixed (render : ℚ → String) (x : ℚ) (K : ℕ) (hlo : 2 ^ K / 2 ^ 54 ≤ x)
    (hK : x < 2 ^ K) (hK' : K ≤ 69) :
    ∃ (r : ℚ) (n : ℕ), round64 x = JsNum.fin r ∧ |r - x| ≤ 2 ^ K / 2 ^ 54 ∧
      toFixed2 render r = fixed2 n ∧ |(n : ℚ) / 100 - r| ≤ 1 / 200 := by
  have hone : (1 : ℚ) ≤ 2 ^ K := one_le_pow₀ (by norm_num)
  have h₀ : (1 : ℚ) / 2 ^ 1022 ≤ x := by
    refine le_trans ?_ hlo
    calc (1 : ℚ) / 2 ^ 1022 ≤ 1 / 2 ^ 54 := by norm_num
      _ ≤ 2 ^ K / 2 ^ 54 := by
        apply div_le_div_of_nonneg_right hone
        positivity
  obtain ⟨r, hr, herr⟩ := round64_near x K h₀ hK (by omega)
  have hb := abs_le.mp herr
  have hr₀ : 0 ≤ r := by linarith
  have hK69 : (2 : ℚ) ^ K ≤ 2 ^ 69 := pow_le_pow_right₀ (by norm_num) hK'
  have h54 : (2 : ℚ) ^ K / 2 ^ 54 ≤ 2 ^ 69 / 2 ^ 54 :=
    div_le_div_of_nonneg_right hK69 (by positivity)
  have hbig : r < 10 ^ 21 := by
    have : (2 : ℚ) ^ 69 + 2 ^ 69 / 2 ^ 54 < 10 ^ 21 := by norm_num
    linarith
  exact ⟨r, ⌊r * 100 + 1 / 2⌋₊, hr, herr, toFixed2_of_nonneg render r hr₀ hbig,
    abs_hundredths_sub_le r hr₀⟩

/-- A number of hundredths within a nearest one plus `δ` of `d / D`, where `D`
is a multiple of 200 and `D * δ < 1`, is a nearest one. -/
theorem hundredths_snap (n d c : ℕ) (D δ : ℚ) (hc : 0 < c) (hD : D = 200 * c)
    (hδ : D * δ < 1) (h : |(n : ℚ) / 100 - d / D| ≤ 1 / 200 + δ) :
    |(n : ℚ) / 100 - d / D| ≤ 1 / 200 := by
  subst hD
  have hcq : (0 : ℚ) < c := by exact_mod_cast hc
  have hpos : (0 : ℚ) < 200 * c := by positivity
  have e : (n : ℚ) / 100 - d / (200 * c) = (((2 * c * n : ℤ) - d : ℤ) : ℚ) / (200 * c) := by
    push_cast
    field_simp
    ring
  rw [e] at h ⊢
  rw [abs_div, abs_of_pos hpos, div_le_iff₀ hpos] at h ⊢
  have h1 : |(((2 * c * n : ℤ) - d : ℤ) : ℚ)| < c + 1 := by
    calc _ ≤ (1 / 200 + δ) * (200 * c) := h
      _ = c + 200 * c * δ := by ring
      _ < c + 1 := by linarith
  have h2 : |((2 * c * n : ℤ) - d : ℤ)| < (c : ℤ) + 1 := by exact_mod_cast h1
  have h3 : |((2 * c * n : ℤ) - d : ℤ)| ≤ (c : ℤ) := by omega
  have h4 : |(((2 * c * n : ℤ) - d : ℤ) : ℚ)| ≤ c := by exact_mod_cast h3
  calc _ ≤ (c : ℚ) := h4
    _ = 1 / 200 * (200 * c) := by ring

/-- The number `10 ^ 21` is written in the exponent form: one significant digit
reads back as the number. -/
theorem natToString_sextillion : natToString (10 ^ 21) = "1e+21" := by
  have h1 : round64 ((1 * 10 ^ 21 : ℕ) : ℚ) = JsNum.fin ((10 ^ 21 : ℕ) : ℚ) :=
    round64_of _ _ 69 7629394531250000 (by norm_num) (by norm_num) (by norm_num)
      (by norm_num) (by norm_num [abs_lt]) (by norm_num [abs_lt])
  have h2 : round64 (((1 + 1) * 10 ^ 21 : ℕ) : ℚ) = JsNum.fin ((2 * 10 ^ 21 : ℕ) : ℚ) :=
    round64_of _ _ 70 7629394531250000 (by norm_num) (by norm_num) (by norm_num)
      (by norm_num) (by norm_num [abs_lt]) (by norm_num [abs_lt])
  have hlen : decimalLength (10 ^ 21) = 22 := by decide
  have hdiv : 10 ^ 21 / 10 ^ (22 - 1) = 1 := by norm_num
  have hne : ¬ (JsNum.fin ((2 * 10 ^ 21 : ℕ) : ℚ) = JsNum.fin ((10 ^ 21 : ℕ) : ℚ)) := by
    intro h
    injection h with h
    norm_num at h
  have hp : shortestWith (10 ^ 21) 1 = some (10 ^ 21) := by
    rw [shortestWith, hlen, hdiv, pick, if_pos h1, h2, if_neg (fun h => hne h.1)]
    norm_num
  have hs : shortest (10 ^ 21) = 10 ^ 21 := by
    rw [shortest, List.findSome?_cons, hp]
    rfl
  rw [natToString, if_neg (by norm_num), hs, if_neg (by norm_num)]
  decide

/-- The quotient of `d` nanoseconds by 1000, rounded, and its rendering, for
`1000 ≤ d < 1000000`. -/
theorem thousandth_fixed (render : ℚ → String) (d : ℕ) (h₁ : 1000 ≤ d) (h₂ : d < 1000000) :
    ∃ (r : ℚ) (n : ℕ), round64 ((d : ℚ) / 1000) = JsNum.fin r ∧
      toFixed2 render r = fixed2 n ∧ |(n : ℚ) / 100 - (d : ℚ) / 1000| ≤ 1 / 200 := by
  have hd₁ : (1000 : ℚ) ≤ (d : ℚ) := by exact_mod_cast h₁
  have hd₂ : (d : ℚ) < 1000000 := by exact_mod_cast h₂
  obtain ⟨r, n, hr, herr, hfix, hn⟩ := round64_fixed render ((d : ℚ) / 1000) 10
    (by rw [le_div_iff₀ (by norm_num)]; norm_num; linarith)
    (by rw [div_lt_iff₀ (by norm_num)]; norm_num; linarith) (by norm_num)
  refine ⟨r, n, hr, hfix, ?_⟩
  apply hundredths_snap n d 5 1000 (2 ^ 10 / 2 ^ 54) (by norm_num) (by norm_num) (by norm_num)
  have e : (n : ℚ) / 100 - (d : ℚ) / 1000 = ((n : ℚ) / 100 - r) + (r - (d : ℚ) / 1000) := by
    ring
  rw [e]
  exact le_trans (abs_add _ _) (add_le_add hn herr)

/-- The quotient of `d` nanoseconds by 1000000, rounded, and its rendering, for
`1000000 ≤ d < 2 ^ 34 * 1000000`: the rounded quotient is at least 1, and below
1000 when `d < 1000000000`. -/
theorem millionth_fixed (render : ℚ → String) (d : ℕ) (h₁ : 1000000 ≤ d)
    (h₂ : d < 17179869184000000) :
    ∃ (r : ℚ) (n : ℕ), round64 ((d : ℚ) / 1000000) = JsNum.fin r ∧ 1 ≤ r ∧
      (d < 1000000000 → r < 1000) ∧
      toFixed2 render r = fixed2 n ∧ |(n : ℚ) / 100 - (d : ℚ) / 1000000| ≤ 1 / 200 := by
  have hd₁ : (1000000 : ℚ) ≤ (d : ℚ) := by exact_mod_cast h₁
  have hd₂ : (d : ℚ) < 17179869184000000 := by exact_mod_cast h₂
  obtain ⟨r, n, hr, herr, hfix, hn⟩ := round64_fixed render ((d : ℚ) / 1000000) 34
    (by rw [le_div_iff₀ (by norm_num)]; norm_num; linarith)
    (by rw [div_lt_iff₀ (by norm_num)]; norm_num; linarith) (by norm_num)
  have hb := abs_le.mp herr
  refine ⟨r, n, hr, ?_, fun h₃ => ?_, hfix, ?_⟩
  · rcases Nat.eq_or_lt_of_le h₁ with h | h
    · subst h
      have hone : round64 (((1000000 : ℕ) : ℚ) / 1000000)
          = JsNum.fin (((4503599627370496 : ℤ) : ℚ) * 2 ^ ((0 : ℤ) - 52)) :=
        round64_eval _ 0 4503599627370496 (by norm_num) (by norm_num) (by norm_num)
          (by norm_num) (by norm_num [abs_lt])
      rw [hr] at hone
      injection hone with hone
      rw [hone]
      norm_num
    · have hd₃ : (1000001 : ℚ) ≤ (d : ℚ) := by exact_mod_cast h
      have : (1000001 : ℚ) / 1000000 ≤ (d : ℚ) / 1000000 :=
        div_le_div_of_nonneg_right hd₃ (by norm_num)
      norm_num at hb this ⊢
      linarith
  · have hd₃ : (d : ℚ) ≤ 999999999 := by exact_mod_cast Nat.le_of_lt_succ h₃
    have : (d : ℚ) / 1000000 ≤ 999999999 / 1000000 :=
      div_le_div_of_nonneg_right hd₃ (by norm_num)
    norm_num at hb this ⊢
    linarith
  · apply hundredths_snap n d 5000 1000000 (2 ^ 34 / 2 ^ 54) (by norm_num) (by norm_num)
      (by norm_num)
    have e : (n : ℚ) / 100 - (d : ℚ) / 1000000
        = ((n : ℚ) / 100 - r) + (r - (d : ℚ) / 1000000) := by
      ring
    rw [e]
    exact le_trans (abs_add _ _) (add_le_add hn herr)

/-- The computation `(d / 1000000) * 1000` of the aggregate-stats formatter
with both roundings, and its rendering, for `0 < d < 1000000`: the rounded
quotient is below 1. -/
theorem millionth_thousand_fixed (render : ℚ → String) (d : ℕ) (h₁ : 0 < d)
    (h₂ : d < 1000000) :
    ∃ (r₁ r₂ : ℚ) (n : ℕ), round64 ((d : ℚ) / 1000000) = JsNum.fin r₁ ∧ r₁ < 1 ∧
      round64 (r₁ * 1000) = JsNum.fin r₂ ∧
      toFixed2 render r₂ = fixed2 n ∧ |(n : ℚ) / 100 - (d : ℚ) / 1000| ≤ 1 / 200 := by
  have hd₁ : (1 : ℚ) ≤ (d : ℚ) := by exact_mod_cast h₁
  have hd₂ : (d : ℚ) ≤ 999999 := by exact_mod_cast Nat.le_of_lt_succ h₂
  have hx₁ : (1 : ℚ) / 1000000 ≤ (d : ℚ) / 1000000 :=
    div_le_div_of_nonneg_right hd₁ (by norm_num)
  have hx₂ : (d : ℚ) / 1000000 ≤ 999999 / 1000000 :=
    div_le_div_of_nonneg_right hd₂ (by norm_num)
  obtain ⟨r₁, hr₁, herr₁⟩ := round64_near ((d : ℚ) / 1000000) 0
    (le_trans (by norm_num) hx₁) (lt_of_le_of_lt hx₂ (by norm_num)) (by norm_num)
  have hb₁ := abs_le.mp herr₁
  norm_num at hb₁
  have hlt : r₁ < 1 := by linarith
  have hpos : (1 : ℚ) / 2000000 ≤ r₁ := by linarith
  obtain ⟨r₂, n, hr₂, herr₂, hfix, hn⟩ := round64_fixed render (r₁ * 1000) 10
    (by norm_num; linarith) (by norm_num; linarith) (by norm_num)
  refine ⟨r₁, r₂, n, hr₁, hlt, hr₂, hfix, ?_⟩
  apply hundredths_snap n d 5 1000 (2 ^ 10 / 2 ^ 54 + 1000 * (1 / 2 ^ 54)) (by norm_num)
    (by norm_num) (by norm_num)
  have e : (n : ℚ) / 100 - (d : ℚ) / 1000
      = ((n : ℚ) / 100 - r₂) + ((r₂ - r₁ * 1000) + 1000 * (r₁ - (d : ℚ) / 1000000)) := by
    ring
  have h3 : |1000 * (r₁ - (d : ℚ) / 1000000)| ≤ 1000 * (1 / 2 ^ 54) := by
    rw [abs_mul, abs_of_pos (by norm_num : (0 : ℚ) < 1000)]
    have : |r₁ - (d : ℚ) / 1000000| ≤ 1 / 2 ^ 54 := by
      simpa using herr₁
    linarith
  rw [e]
  calc _ ≤ |(n : ℚ) / 100 - r₂| + |(r₂ - r₁ * 1000) + 1000 * (r₁ - (d : ℚ) / 1000000)| :=
        abs_add _ _
    _ ≤ |(n : ℚ) / 100 - r₂| + (|r₂ - r₁ * 1000| + |1000 * (r₁ - (d : ℚ) / 1000000)|) :=
        add_le_add le_rfl (abs_add _ _)
    _ ≤ 1 / 200 + (2 ^ 10 / 2 ^ 54 + 1000 * (1 / 2 ^ 54)) :=
        add_le_add hn (add_le_add herr₂ h3)

/-- The computation `(d / 1000000) / 1000` of the aggregate-stats formatter
with both roundings, and its rendering, for
`1000000000 ≤ d < 2 ^ 23 * 1000000000`: the rounded quotient by 1000000 is at
least 1000. -/
theorem millionth_thousandth_fixed (render : ℚ → String) (d : ℕ) (h₁ : 1000000000 ≤ d)
    (h₂ : d < 8388608000000000) :
    ∃ (r₁ r₂ : ℚ) (n : ℕ), round64 ((d : ℚ) / 1000000) = JsNum.fin r₁ ∧ 1000 ≤ r₁ ∧
      round64 (r₁ / 1000) = JsNum.fin r₂ ∧
      toFixed2 render r₂ = fixed2 n ∧ |(n : ℚ) / 100 - (d : ℚ) / 1000000000| ≤ 1 / 200 := by
  have hd₁ : (1000000000 : ℚ) ≤ (d : ℚ) := by exact_mod_cast h₁
  have hd₂ : (d : ℚ) ≤ 8388607999999999 := by exact_mod_cast Nat.le_of_lt_succ h₂
  have hx₁ : (1000000000 : ℚ) / 1000000 ≤ (d : ℚ) / 1000000 :=
    div_le_div_of_nonneg_right hd₁ (by norm_num)
  have hx₂ : (d : ℚ) / 1000000 ≤ 8388607999999999 / 1000000 :=
    div_le_div_of_nonneg_right hd₂ (by norm_num)
  obtain ⟨r₁, hr₁, herr₁⟩ := round64_near ((d : ℚ) / 1000000) 33
    (le_trans (by norm_num) hx₁) (lt_of_le_of_lt hx₂ (by norm_num)) (by norm_num)
  have hb₁ := abs_le.mp herr₁
  norm_num at hb₁ hx₁ hx₂
  have hge : 1000 ≤ r₁ := by
    rcases Nat.eq_or_lt_of_le h₁ with h | h
    · subst h
      have hth : round64 (((1000000000 : ℕ) : ℚ) / 1000000)
          = JsNum.fin (((8796093022208000 : ℤ) : ℚ) * 2 ^ ((9 : ℤ) - 52)) :=
        round64_eval _ 9 8796093022208000 (by norm_num) (by norm_num) (by norm_num)
          (by norm_num) (by norm_num [abs_lt])
      rw [hr₁] at hth
      injection hth with hth
      rw [hth]
      norm_num
    · have hd₃ : (1000000001 : ℚ) ≤ (d : ℚ) := by exact_mod_cast h
      have : (1000000001 : ℚ) / 1000000 ≤ (d : ℚ) / 1000000 :=
        div_le_div_of_nonneg_right hd₃ (by norm_num)
      linarith
  have hlt : r₁ < 8388608000 := by linarith
  obtain ⟨r₂, n, hr₂, herr₂, hfix, hn⟩ := round64_fixed render (r₁ / 1000) 23
    (by rw [le_div_iff₀ (by norm_num)]; norm_num; linarith)
    (by rw [div_lt_iff₀ (by norm_num)]; norm_num; linarith) (by norm_num)
  refine ⟨r₁, r₂, n, hr₁, hge, hr₂, hfix, ?_⟩
  apply hundredths_snap n d 5000000 1000000000 (2 ^ 23 / 2 ^ 54 + 2 ^ 33 / 2 ^ 54 / 1000)
    (by norm_num) (by norm_num) (by norm_num)
  have e : (n : ℚ) / 100 - (d : ℚ) / 1000000000
      = ((n : ℚ) / 100 - r₂) + ((r₂ - r₁ / 1000) + (r₁ - (d : ℚ) / 1000000) / 1000) := by
    ring
  have h3 : |(r₁ - (d : ℚ) / 1000000) / 1000| ≤ 2 ^ 33 / 2 ^ 54 / 1000 := by
    rw [abs_div, abs_of_pos (by norm_num : (0 : ℚ) < 1000)]
    exact div_le_div_of_nonneg_right herr₁ (by norm_num)
  rw [e]
  calc _ ≤ |(n : ℚ) / 100 - r₂| + |(r₂ - r₁ / 1000) + (r₁ - (d : ℚ) / 1000000) / 1000| :=
        abs_add _ _
    _ ≤ |(n : ℚ) / 100 - r₂| + (|r₂ - r₁ / 1000| + |(r₁ - (d : ℚ) / 1000000) / 1000|) :=
        add_le_add le_rfl (abs_add _ _)
    _ ≤ 1 / 200 + (2 ^ 23 / 2 ^ 54 + 2 ^ 33 / 2 ^ 54 / 1000) :=
        add_le_add hn (add_le_add herr₂ h3)

end Js

/-! ## The per-query formatter -/

namespace App

/-- On a number that is not below 1000 the formatter divides by 1000 or by
1000000 and renders the rounded quotient. -/
theorem formatDuration_of_ge (render : ℚ → String) (q : ℚ) (h : ¬ q < 1000) :
    formatDuration render (JsVal.num q) =
      if q < 1000000 then JsVal.str ((Js.round64 (q / 1000)).toFixed2 render ++ "μs")
      else JsVal.str ((Js.round64 (q / 1000000)).toFixed2 render ++ "ms") := by
  simp only [formatDuration, if_neg h, Js.JsNum.div]

/-- C12. For every integer number of nanoseconds `d` with `0 ≤ d < 1000` the
per-query `formatDuration` returns the decimal rendering of `d` followed by
`"ns"`; the rendering consists of digits, so it has no decimal point. -/
theorem formatDuration_nanoseconds (render : ℚ → String) (d : ℕ) (h : d < 1000) :
    formatDuration render (JsVal.num (d : ℚ)) = JsVal.str (toString d ++ "ns") ∧
    (∀ c ∈ (toString d).toList, c.isDigit = true) ∧
    '.' ∉ (toString d).toList := by
  have hq : ((d : ℚ) < 1000) := by exact_mod_cast h
  have hd : d ≤ 2 ^ 53 := le_of_lt (lt_of_lt_of_le h (by norm_num))
  refine ⟨?_, Js.isDigit_of_mem_toString d, fun hmem => ?_⟩
  · simp [formatDuration, hq, Js.numberToString_natCast, Js.natToString_of_le d hd]
  · have := Js.isDigit_of_mem_toString d _ hmem
    simp [Char.isDigit] at this

/-- C12, at the two ends of the range: `0` gives `"0ns"` and `999` gives
`"999ns"`. -/
theorem formatDuration_nanoseconds_witness :
    formatDuration (fun _ => "") (JsVal.num ((0 : ℕ) : ℚ)) = JsVal.str "0ns" ∧
    formatDuration (fun _ => "") (JsVal.num ((999 : ℕ) : ℚ)) = JsVal.str "999ns" :=
  ⟨(formatDuration_nanoseconds (fun _ => "") 0 (by decide)).1,
   (formatDuration_nanoseconds (fun _ => "") 999 (by decide)).1⟩

/-- C13. For every integer number of nanoseconds `d` with
`1000 ≤ d < 1000000` the per-query `formatDuration` returns a number of
hundredths `n` written with exactly two decimal places (integer part, point,
two digits) followed by `"μs"`, where `n / 100` is a hundredth nearest to
`d / 1000`. -/
theorem formatDuration_microseconds (render : ℚ → String) (d : ℕ)
    (h₁ : 1000 ≤ d) (h₂ : d < 1000000) :
    ∃ n : ℕ,
      formatDuration render (JsVal.num (d : ℚ)) =
        JsVal.str (toString (n / 100) ++ "." ++ toString (n % 100 / 10) ++ toString (n % 10)
          ++ "μs") ∧
      |(n : ℚ) / 100 - (d : ℚ) / 1000| ≤ 1 / 200 := by
  have hq₁ : ¬ ((d : ℚ) < 1000) := by exact_mod_cast not_lt.mpr h₁
  have hq₂ : ((d : ℚ) < 1000000) := by exact_mod_cast h₂
  obtain ⟨r, n, hr, hfix, hn⟩ := Js.thousandth_fixed render d h₁ h₂
  refine ⟨n, ?_, hn⟩
  simp only [formatDuration_of_ge render _ hq₁, if_pos hq₂, hr, Js.JsNum.toFixed2, hfix,
    Js.fixed2]

/-- C13, at 1500 ns: the result is a two-decimal rendering followed by
`"μs"`. -/
theorem formatDuration_microseconds_witness :
    ∃ n : ℕ,
      formatDuration (fun _ => "") (JsVal.num ((1500 : ℕ) : ℚ)) =
        JsVal.str (toString (n / 100) ++ "." ++ toString (n % 100 / 10) ++ toString (n % 10)
          ++ "μs") ∧
      |(n : ℚ) / 100 - ((1500 : ℕ) : ℚ) / 1000| ≤ 1 / 200 :=
  formatDuration_microseconds (fun _ => "") 1500 (by decide) (by decide)

/-- C14, as stated, fails.  The integer `141773574652745008` is a binary64
number; its quotient by 1000000 rounds to `141773574652.7449951171875`, which
is written `"141773574652.74ms"`, while the quotient `141773574652.745008` is
more than half a hundredth away from `141773574652.74`.  And for `10 ^ 27` the
quotient is `10 ^ 21`, where `toFixed(2)` switches to the exponent form: the
result is `"1e+21ms"`, which has no decimal point and so no decimal places. -/
theorem formatDuration_milliseconds_counterexample :
    Js.round64 141773574652745008 = Js.JsNum.fin 141773574652745008 ∧
    formatDuration (fun _ => "") (JsVal.num 141773574652745008)
      = JsVal.str "141773574652.74ms" ∧
    1 / 200 < |(14177357465274 : ℚ) / 100 - 141773574652745008 / 1000000| ∧
    formatDuration (fun _ => "") (JsVal.num ((10 ^ 27 : ℕ) : ℚ)) = JsVal.str "1e+21ms" ∧
    '.' ∉ "1e+21ms".toList := by
  have hd : Js.round64 141773574652745008 = Js.JsNum.fin 141773574652745008 :=
    Js.round64_of _ _ 56 8860848415796563 (by norm_num) (by norm_num) (by norm_num)
      (by norm_num) (by norm_num [abs_lt]) (by norm_num [abs_lt])
  have hr : Js.round64 ((141773574652745008 : ℚ) / 1000000)
      = Js.JsNum.fin (1161409123555287 / 8192) :=
    Js.round64_of _ _ 37 4645636494221148 (by norm_num) (by norm_num) (by norm_num)
      (by norm_num) (by norm_num [abs_lt]) (by norm_num [abs_lt])
  have hf : Js.toFixed2 (fun _ => "") (1161409123555287 / 8192) = Js.fixed2 14177357465274 :=
    Js.toFixed2_eq _ _ _ (by norm_num) (by norm_num) (by norm_num) (by norm_num)
  have hr' : Js.round64 (((10 ^ 27 : ℕ) : ℚ) / 1000000) = Js.JsNum.fin ((10 ^ 21 : ℕ) : ℚ) :=
    Js.round64_of _ _ 69 7629394531250000 (by norm_num) (by norm_num) (by norm_num)
      (by norm_num) (by norm_num [abs_lt]) (by norm_num [abs_lt])
  refine ⟨hd, ?_, ?_, ?_, by decide⟩
  · rw [formatDuration_of_ge _ _ (by norm_num), if_neg (by norm_num), hr]
    simp only [Js.JsNum.toFixed2, hf]
    rfl
  · rw [lt_abs]
    right
    norm_num
  · rw [formatDuration_of_ge _ _ (by norm_num), if_neg (by norm_num), hr']
    simp only [Js.JsNum.toFixed2, Js.toFixed2_natCast_of_ge _ (10 ^ 21) le_rfl,
      Js.natToString_sextillion]
    rfl

/-- C14, amended. For every integer number of nanoseconds `d` with
`1000000 ≤ d < 17179869184000000` (that is `2 ^ 34` ms, more than six months, so
also for durations of a second or more) the per-query `formatDuration` returns
a number of hundredths `n` written with exactly two decimal places followed by
`"ms"`, where `n / 100` is a hundredth nearest to `d / 1000000`. -/
theorem formatDuration_milliseconds (render : ℚ → String) (d : ℕ)
    (h₁ : 1000000 ≤ d) (h₂ : d < 17179869184000000) :
    ∃ n : ℕ,
      formatDuration render (JsVal.num (d : ℚ)) =
        JsVal.str (toString (n / 100) ++ "." ++ toString (n % 100 / 10) ++ toString (n % 10)
          ++ "ms") ∧
      |(n : ℚ) / 100 - (d : ℚ) / 1000000| ≤ 1 / 200 := by
  have hd : (1000000 : ℚ) ≤ (d : ℚ) := by exact_mod_cast h₁
  have hq₁ : ¬ ((d : ℚ) < 1000) := by linarith
  have hq₂ : ¬ ((d : ℚ) < 1000000) := by linarith
  obtain ⟨r, n, hr, -, -, hfix, hn⟩ := Js.millionth_fixed render d h₁ h₂
  refine ⟨n, ?_, hn⟩
  simp only [formatDuration_of_ge render _ hq₁, if_neg hq₂, hr, Js.JsNum.toFixed2, hfix,
    Js.fixed2]

/-- C14, amended, at 1234567890 ns, more than a second: the result is a
two-decimal rendering followed by `"ms"`. -/
theorem formatDuration_milliseconds_witness :
    ∃ n : ℕ,
      formatDuration (fun _ => "") (JsVal.num ((1234567890 : ℕ) : ℚ)) =
        JsVal.str (toString (n / 100) ++ "." ++ toString (n % 100 / 10) ++ toString (n % 10)
          ++ "ms") ∧
      |(n : ℚ) / 100 - ((1234567890 : ℕ) : ℚ) / 1000000| ≤ 1 / 200 :=
  formatDuration_milliseconds (fun _ => "") 1234567890 (by decide) (by decide)

/-- C15. The per-query `formatDuration` returns every string unchanged (the
empty string and strings that spell numbers included), and it is idempotent on
every string and every number. -/
theorem formatDuration_string_unchanged (render : ℚ → String) :
    (∀ s : String, formatDuration render (JsVal.str s) = JsVal.str s) ∧
    formatDuration render (JsVal.str "") = JsVal.str "" ∧
    formatDuration render (JsVal.str "1500") = JsVal.str "1500" ∧
    (∀ s : String, formatDuration render (formatDuration render (JsVal.str s))
      = formatDuration render (JsVal.str s)) ∧
    (∀ q : ℚ, formatDuration render (formatDuration render (JsVal.num q))
      = formatDuration render (JsVal.num q)) := by
  refine ⟨fun s => rfl, rfl, rfl, fun s => rfl, fun q => ?_⟩
  simp only [formatDuration]
  split_ifs <;> rfl

/-- C20, as stated, fails.  For an absent (`undefined`) duration the per-query
`formatDuration` returns `undefined`, not a string; so it does for the
`AverageOptimizationTime` of an `optimization_stats` payload that lacks that
field. -/
theorem formatDuration_undefined_counterexample :
    formatDuration (fun _ => "") JsVal.undefined = JsVal.undefined ∧
    formatDuration (fun _ => "")
      ((JsVal.obj [("TotalQueries", JsVal.num 3)]).get "AverageOptimizationTime")
      = JsVal.undefined :=
  ⟨rfl, rfl⟩

/-- C20, amended. The per-query `formatDuration` returns a string for every
string and for every number; every other value, an absent (`undefined`)
duration included, is returned unchanged. -/
theorem formatDuration_result (render : ℚ → String) (v : JsVal)
    (hs : ∀ s : String, v ≠ JsVal.str s) (hq : ∀ q : ℚ, v ≠ JsVal.num q) :
    formatDuration render v = v ∧
    formatDuration render JsVal.undefined = JsVal.undefined ∧
    (∀ s : String, ∃ r : String, formatDuration render (JsVal.str s) = JsVal.str r) ∧
    (∀ q : ℚ, ∃ r : String, formatDuration render (JsVal.num q) = JsVal.str r) := by
  refine ⟨?_, rfl, fun s => ⟨s, rfl⟩, fun q => ?_⟩
  · cases v with
    | str s => exact absurd rfl (hs s)
    | num q => exact absurd rfl (hq q)
    | undefined => rfl
    | null => rfl
    | bool b => rfl
    | arr items => rfl
    | obj members => rfl
  · simp only [formatDuration]
    split_ifs <;> exact ⟨_, rfl⟩

/-- C20, amended, on `null`: the value is returned unchanged. -/
theorem formatDuration_result_witness :
    formatDuration (fun _ => "") JsVal.null = JsVal.null :=
  (formatDuration_result (fun _ => "") JsVal.null (fun s => by simp) (fun q => by simp)).1

end App

/-! ## The aggregate-stats formatter and the values shown by the panel -/

namespace OptimizationPanel

/-- On a number other than zero the formatter chooses the unit by the size of
the rounded quotient by 1000000. -/
theorem aggregate_num (render : ℚ → String) (q r : ℚ) (hq : q ≠ 0)
    (hr : Js.round64 (q / 1000000) = Js.JsNum.fin r) :
    formatDuration render (JsVal.num q) =
      if r < 1 then some ((Js.round64 (r * 1000)).toFixed2 render ++ "μs")
      else if r < 1000 then some (Js.toFixed2 render r ++ "ms")
      else some ((Js.round64 (r / 1000)).toFixed2 render ++ "s") := by
  simp only [formatDuration, JsVal.truthy, Js.toNumber, Js.JsNum.div, hr, Js.JsNum.lt,
    Js.JsNum.mul, Js.JsNum.toFixed2, decide_eq_true_eq]
  simp [hq]

theorem aggregate_falsy (render : ℚ → String) (v : JsVal) (h : v.truthy = false) :
    formatDuration render v = some "0ms" := by
  simp [formatDuration, h]

/-- C16, as stated, fails.  At `d = 0` the aggregate-stats `formatDuration`
returns `"0ms"`, not the microseconds rendering `"0.00μs"`.  And at the
binary64 number `d = 8851068603596799 / 2 ^ 41`, just below 4025, the quotient
by 1000000 and the product by 1000 round up to `4.025000000000000355...`,
which is written `"4.03μs"`, while `d / 1000` is more than half a hundredth
below `4.03`. -/
theorem aggregate_zero_counterexample :
    formatDuration (fun _ => "") (JsVal.num 0) = some "0ms" ∧ "0ms" ≠ "0.00μs" ∧
    Js.round64 (8851068603596799 / 2199023255552)
      = Js.JsNum.fin (8851068603596799 / 2199023255552) ∧
    formatDuration (fun _ => "") (JsVal.num (8851068603596799 / 2199023255552))
      = some "4.03μs" ∧
    1 / 200 < |(403 : ℚ) / 100 - 8851068603596799 / 2199023255552 / 1000| := by
  have hd : Js.round64 (8851068603596799 / 2199023255552)
      = Js.JsNum.fin (8851068603596799 / 2199023255552) :=
    Js.round64_of _ _ 11 8851068603596799 (by norm_num) (by norm_num) (by norm_num)
      (by norm_num) (by norm_num [abs_lt]) (by norm_num [abs_lt])
  have hr₁ : Js.round64 ((8851068603596799 / 2199023255552 : ℚ) / 1000000)
      = Js.JsNum.fin (4640509056042559 / 1152921504606846976) :=
    Js.round64_of _ _ (-8) 4640509056042559 (by norm_num) (by norm_num) (by norm_num)
      (by norm_num) (by norm_num [abs_lt]) (by norm_num [abs_lt])
  have hr₂ : Js.round64 ((4640509056042559 / 1152921504606846976 : ℚ) * 1000)
      = Js.JsNum.fin (2265873562520781 / 562949953421312) :=
    Js.round64_of _ _ 2 4531747125041562 (by norm_num) (by norm_num) (by norm_num)
      (by norm_num) (by norm_num [abs_lt]) (by norm_num [abs_lt])
  have hf : Js.toFixed2 (fun _ => "") (2265873562520781 / 562949953421312) = Js.fixed2 403 :=
    Js.toFixed2_eq _ _ _ (by norm_num) (by norm_num) (by norm_num) (by norm_num)
  refine ⟨aggregate_falsy _ _ (by simp [JsVal.truthy]), by decide, hd, ?_, ?_⟩
  · rw [aggregate_num _ _ _ (by norm_num) hr₁, if_pos (by norm_num), hr₂]
    simp only [Js.JsNum.toFixed2, hf]
    rfl
  · rw [lt_abs]
    left
    norm_num

/-- C16, amended. For every integer number of nanoseconds `d` with
`0 < d < 1000000` the aggregate-stats `formatDuration` returns a number of
hundredths `n` written with exactly two decimal places followed by `"μs"`, where
`n / 100` is a hundredth nearest to `d / 1000`; for `d = 0` it returns
`"0ms"`. -/
theorem aggregate_microseconds (render : ℚ → String) (d : ℕ)
    (h₁ : 0 < d) (h₂ : d < 1000000) :
    (∃ n : ℕ,
      formatDuration render (JsVal.num (d : ℚ)) =
        some (toString (n / 100) ++ "." ++ toString (n % 100 / 10) ++ toString (n % 10)
          ++ "μs") ∧
      |(n : ℚ) / 100 - (d : ℚ) / 1000| ≤ 1 / 200) ∧
    formatDuration render (JsVal.num 0) = some "0ms" := by
  have hne : (d : ℚ) ≠ 0 := by exact_mod_cast (Nat.pos_iff_ne_zero.mp h₁)
  obtain ⟨r₁, r₂, n, hr₁, hlt, hr₂, hfix, hn⟩ := Js.millionth_thousand_fixed render d h₁ h₂
  refine ⟨⟨n, ?_, hn⟩, aggregate_falsy _ _ (by simp [JsVal.truthy])⟩
  rw [aggregate_num render _ r₁ hne hr₁, if_pos hlt, hr₂]
  simp only [Js.JsNum.toFixed2, hfix, Js.fixed2]

/-- C16, amended, at 1500 ns. -/
theorem aggregate_microseconds_witness :
    ∃ n : ℕ,
      formatDuration (fun _ => "") (JsVal.num ((1500 : ℕ) : ℚ)) =
        some (toString (n / 100) ++ "." ++ toString (n % 100 / 10) ++ toString (n % 10)
          ++ "μs") ∧
      |(n : ℚ) / 100 - ((1500 : ℕ) : ℚ) / 1000| ≤ 1 / 200 :=
  (aggregate_microseconds (fun _ => "") 1500 (by decide) (by decide)).1

/-- C17, as stated, fails.  For the duration `2 ^ 80`, a binary64 number that
is at least `1000000000`, the quotient by 1000000 rounds to
`1208925819614629120` and its quotient by 1000 to `1208925819614629`, which is
written `"1208925819614629.00s"`, while `2 ^ 80 / 1000000000` is
`1208925819614629.174706176`, more than half a hundredth away.  And for
`10 ^ 30` the two quotients round to `999999999999999983222784` and to
`10 ^ 21`, where `toFixed(2)` switches to the exponent form: the result is
`"1e+21s"`, which has no decimal point and so no decimal places. -/
theorem aggregate_seconds_counterexample :
    Js.round64 (2 ^ 80) = Js.JsNum.fin (2 ^ 80) ∧
    formatDuration (fun _ => "") (JsVal.num (2 ^ 80)) = some "1208925819614629.00s" ∧
    1 / 200 < |(120892581961462900 : ℚ) / 100 - 2 ^ 80 / 1000000000| ∧
    formatDuration (fun _ => "") (JsVal.num ((10 ^ 30 : ℕ) : ℚ)) = some "1e+21s" ∧
    '.' ∉ "1e+21s".toList := by
  have hd : Js.round64 (2 ^ 80) = Js.JsNum.fin (2 ^ 80) :=
    Js.round64_of _ _ 80 4503599627370496 (by norm_num) (by norm_num) (by norm_num)
      (by norm_num) (by norm_num [abs_lt]) (by norm_num [abs_lt])
  have hr₁ : Js.round64 ((2 : ℚ) ^ 80 / 1000000) = Js.JsNum.fin 1208925819614629120 :=
    Js.round64_of _ _ 60 4722366482869645 (by norm_num) (by norm_num) (by norm_num)
      (by norm_num) (by norm_num [abs_lt]) (by norm_num [abs_lt])
  have hr₂ : Js.round64 ((1208925819614629120 : ℚ) / 1000)
      = Js.JsNum.fin 1208925819614629 :=
    Js.round64_of _ _ 50 4835703278458516 (by norm_num) (by norm_num) (by norm_num)
      (by norm_num) (by norm_num [abs_lt]) (by norm_num [abs_lt])
  have hf : Js.toFixed2 (fun _ => "") 1208925819614629 = Js.fixed2 120892581961462900 :=
    Js.toFixed2_eq _ _ _ (by norm_num) (by norm_num) (by norm_num) (by norm_num)
  have hr₁' : Js.round64 (((10 ^ 30 : ℕ) : ℚ) / 1000000)
      = Js.JsNum.fin 999999999999999983222784 :=
    Js.round64_of _ _ 79 7450580596923828 (by norm_num) (by norm_num) (by norm_num)
      (by norm_num) (by norm_num [abs_lt]) (by norm_num [abs_lt])
  have hr₂' : Js.round64 ((999999999999999983222784 : ℚ) / 1000)
      = Js.JsNum.fin ((10 ^ 21 : ℕ) : ℚ) :=
    Js.round64_of _ _ 69 7629394531250000 (by norm_num) (by norm_num) (by norm_num)
      (by norm_num) (by norm_num [abs_lt]) (by norm_num [abs_lt])
  refine ⟨hd, ?_, ?_, ?_, by decide⟩
  · rw [aggregate_num _ _ _ (by norm_num) hr₁, if_neg (by norm_num), if_neg (by norm_num),
      hr₂]
    simp only [Js.JsNum.toFixed2, hf]
    rfl
  · rw [lt_abs]
    right
    norm_num
  · rw [aggregate_num _ _ _ (by norm_num) hr₁', if_neg (by norm_num), if_neg (by norm_num),
      hr₂']
    simp only [Js.JsNum.toFixed2, Js.toFixed2_natCast_of_ge _ (10 ^ 21) le_rfl,
      Js.natToString_sextillion]
    rfl

/-- C17, amended. For every integer number of nanoseconds `d` the
aggregate-stats `formatDuration` returns `d / 1000000` with two decimal places
and the suffix `"ms"` when `1000000 ≤ d < 1000000000`, and `d / 1000000000`
with two decimal places and the suffix `"s"` when
`1000000000 ≤ d < 8388608000000000` (that is `2 ^ 23` s, more than three
months); in both cases the number of hundredths written is a nearest one. -/
theorem aggregate_milliseconds_seconds (render : ℚ → String) (d : ℕ) :
    (1000000 ≤ d → d < 1000000000 →
      ∃ n : ℕ,
        formatDuration render (JsVal.num (d : ℚ)) =
          some (toString (n / 100) ++ "." ++ toString (n % 100 / 10) ++ toString (n % 10)
            ++ "ms") ∧
        |(n : ℚ) / 100 - (d : ℚ) / 1000000| ≤ 1 / 200) ∧
    (1000000000 ≤ d → d < 8388608000000000 →
      ∃ n : ℕ,
        formatDuration render (JsVal.num (d : ℚ)) =
          some (toString (n / 100) ++ "." ++ toString (n % 100 / 10) ++ toString (n % 10)
            ++ "s") ∧
        |(n : ℚ) / 100 - (d : ℚ) / 1000000000| ≤ 1 / 200) := by
  constructor
  · intro h₁ h₂
    have hne : (d : ℚ) ≠ 0 := by
      have : (1000000 : ℚ) ≤ (d : ℚ) := by exact_mod_cast h₁
      linarith
    obtain ⟨r, n, hr, hge, hlt, hfix, hn⟩ :=
      Js.millionth_fixed render d h₁ (lt_trans h₂ (by norm_num))
    refine ⟨n, ?_, hn⟩
    rw [aggregate_num render _ r hne hr, if_neg (not_lt.mpr hge), if_pos (hlt h₂), hfix,
      Js.fixed2]
  · intro h₁ h₂
    have hne : (d : ℚ) ≠ 0 := by
      have : (1000000000 : ℚ) ≤ (d : ℚ) := by exact_mod_cast h₁
      linarith
    obtain ⟨r₁, r₂, n, hr₁, hge, hr₂, hfix, hn⟩ :=
      Js.millionth_thousandth_fixed render d h₁ h₂
    refine ⟨n, ?_, hn⟩
    rw [aggregate_num render _ r₁ hne hr₁, if_neg (by linarith), if_neg (not_lt.mpr hge), hr₂]
    simp only [Js.JsNum.toFixed2, hfix, Js.fixed2]

/-- C17, amended, at 2.5 ms and at 3 s. -/
theorem aggregate_milliseconds_seconds_witness :
    (∃ n : ℕ,
      formatDuration (fun _ => "") (JsVal.num ((2500000 : ℕ) : ℚ)) =
        some (toString (n / 100) ++ "." ++ toString (n % 100 / 10) ++ toString (n % 10)
          ++ "ms") ∧
      |(n : ℚ) / 100 - ((2500000 : ℕ) : ℚ) / 1000000| ≤ 1 / 200) ∧
    (∃ n : ℕ,
      formatDuration (fun _ => "") (JsVal.num ((3000000000 : ℕ) : ℚ)) =
        some (toString (n / 100) ++ "." ++ toString (n % 100 / 10) ++ toString (n % 10)
          ++ "s") ∧
      |(n : ℚ) / 100 - ((3000000000 : ℕ) : ℚ) / 1000000000| ≤ 1 / 200) :=
  ⟨(aggregate_milliseconds_seconds (fun _ => "") 2500000).1 (by decide) (by decide),
   (aggregate_milliseconds_seconds (fun _ => "") 3000000000).2 (by decide) (by decide)⟩

end OptimizationPanel

namespace OptimizationPanel

theorem field_of_group_absent (snapshot : JsVal) (p : String × String)
    (h : (snapshot.get p.1).nullish = true) : field snapshot p = JsVal.undefined := by
  simp [field, JsVal.optGet, h]

/-- A non-empty string that spells no number is formatted as `"NaNs"`: the
quotient by 1000000 is `NaN`, both comparisons fail, and `toFixed(2)` of `NaN`
is `"NaN"`. -/
theorem aggregate_of_nan (render : ℚ → String) (s : String) (hs : s ≠ "")
    (hn : Js.stringToNumber s = Js.JsNum.nan) :
    formatDuration render (JsVal.str s) = some "NaNs" := by
  simp only [formatDuration, JsVal.truthy, Js.toNumber, hn, Js.JsNum.div, Js.JsNum.lt,
    Js.JsNum.toFixed2]
  simp [hs]

/-- C18: the code on absent fields and at the failing input.  For every held
snapshot and every counter and duration shown by the panel: when the group
object is absent the field reads as `undefined`; when the field is absent (or
otherwise falsy) the counter is passed to `formatNumber` as the number `0` and
the duration is formatted as exactly `"0ms"`; a numeric counter is passed as
that number.  But for the held snapshot
`{optimization_stats: {AverageOptimizationTime: "2.5ms"}}`, whose duration is
present and already formatted, the value shown is `"NaNs"`, which contains
`"NaN"`. -/
theorem displayed_values (render : ℚ → String) (snapshot : JsVal) :
    formatDuration render JsVal.undefined = some "0ms" ∧
    (∀ p ∈ counterFields,
      ((snapshot.get p.1).nullish = true → field snapshot p = JsVal.undefined) ∧
      ((field snapshot p).truthy = false → counterArg snapshot p = JsVal.num 0) ∧
      (∀ q : ℚ, field snapshot p = JsVal.num q → counterArg snapshot p = JsVal.num q)) ∧
    (∀ p ∈ durationFields,
      ((snapshot.get p.1).nullish = true → field snapshot p = JsVal.undefined) ∧
      ((field snapshot p).truthy = false → durationText render snapshot p = some "0ms")) ∧
    durationText render
      (JsVal.obj [("optimization_stats",
        JsVal.obj [("AverageOptimizationTime", JsVal.str "2.5ms")])])
      ("optimization_stats", "AverageOptimizationTime") = some "NaNs" ∧
    "NaN".toList <+: "NaNs".toList := by
  refine ⟨rfl, fun p _ => ⟨field_of_group_absent snapshot p, fun h => ?_, fun q hq => ?_⟩,
    fun p _ => ⟨field_of_group_absent snapshot p, fun h => aggregate_falsy render _ h⟩,
    aggregate_of_nan render "2.5ms" (by decide) (by rfl), by decide⟩
  · simp [counterArg, JsVal.or, h]
  · by_cases h0 : q = 0
    · subst h0
      simp [counterArg, JsVal.or, hq, JsVal.truthy]
    · simp [counterArg, JsVal.or, hq, JsVal.truthy, h0]

/-- C18, on the snapshot `{optimizer_stats: {TotalQueries: 7}}`, where
`optimization_stats` and every other field are absent: an absent counter is
passed as `0`, the present one as `7`, an absent duration is `"0ms"`. -/
theorem displayed_values_witness :
    counterArg (JsVal.obj [("optimizer_stats", JsVal.obj [("TotalQueries", JsVal.num 7)])])
      ("optimization_stats", "CacheHits") = JsVal.num 0 ∧
    counterArg (JsVal.obj [("optimizer_stats", JsVal.obj [("TotalQueries", JsVal.num 7)])])
      ("optimizer_stats", "TotalQueries") = JsVal.num 7 ∧
    durationText (fun _ => "")
      (JsVal.obj [("optimizer_stats", JsVal.obj [("TotalQueries", JsVal.num 7)])])
      ("optimizer_stats", "AverageTime") = some "0ms" :=
  have h := displayed_values (fun _ => "")
    (JsVal.obj [("optimizer_stats", JsVal.obj [("TotalQueries", JsVal.num 7)])])
  ⟨(h.2.1 ("optimization_stats", "CacheHits") (by decide)).2.1 rfl,
   (h.2.1 ("optimizer_stats", "TotalQueries") (by decide)).2.2 7 rfl,
   (h.2.2.1 ("optimizer_stats", "AverageTime") (by decide)).2 rfl⟩

end OptimizationPanel

/-! ## The submit handlers: the outcome invariant -/

theorem QueryProcessor.delivered_of_success (data : JsVal) (s : Form)
    (h : (data.get "success").truthy = true) :
    (QueryProcessor.handleSubmit (AxiosResult.resolved data) s).delivered
      = s.delivered ++ [QueryProcessor.resultWithStats data] := by
  have hn : data.nullish = false := JsVal.not_nullish_of_truthy_get data "success" h
  simp [QueryProcessor.handleSubmit, QueryProcessor.tryBlock, JsVal.read, hn, h]

theorem PerformanceComparison.results_delivered_of_success (data : JsVal) (s : Form)
    (h : (data.get "success").truthy = true) :
    (PerformanceComparison.handleSubmit (AxiosResult.resolved data) s).delivered
      = s.delivered ++ [data.get "results"] := by
  have hn : data.nullish = false := JsVal.not_nullish_of_truthy_get data "success" h
  simp [PerformanceComparison.handleSubmit, PerformanceComparison.tryBlock, JsVal.read, hn, h]

theorem QueryProcessor.get_resultWithStats (data : JsVal) (k : String)
    (hk : k ≠ "optimizationStats") :
    (QueryProcessor.resultWithStats data).get k = (data.get "data").get k := by
  unfold QueryProcessor.resultWithStats
  rw [JsVal.get_obj_setProp, if_neg (Ne.symm hk), JsVal.get_spread]

/-- C19, as stated, fails.  When the backend sends `found: false` together
with `value: null`, the outcome passed to `onResult` has `found` false and
`value` `null`, not `undefined`; and so has the entry of the mapping passed to
`onResults`. -/
theorem outcome_invariant_counterexample :
    ((QueryProcessor.handleSubmit (AxiosResult.resolved
      (JsVal.obj [("success", JsVal.bool true),
        ("data", JsVal.obj [("found", JsVal.bool false), ("value", JsVal.null),
          ("performance", JsVal.obj [])])]))
      ⟨false, JsVal.null, []⟩).delivered.map fun r => (r.get "found", r.get "value"))
      = [(JsVal.bool false, JsVal.null)] ∧
    ((PerformanceComparison.handleSubmit (AxiosResult.resolved
      (JsVal.obj [("success", JsVal.bool true),
        ("results", JsVal.obj [("standard",
          JsVal.obj [("found", JsVal.bool false), ("value", JsVal.null),
            ("performance", JsVal.obj [])])])]))
      ⟨false, JsVal.null, []⟩).delivered.map fun m =>
        ((m.get "standard").get "found", (m.get "standard").get "value"))
      = [(JsVal.bool false, JsVal.null)] ∧
    JsVal.null ≠ JsVal.undefined := by
  refine ⟨rfl, rfl, ?_⟩
  simp

/-- C19, amended. The client does not normalise the payload.  For every
response with a truthy `success` flag the outcome passed to `onResult` has
exactly the `found` and the `value` of the backend's `data`, so it satisfies the
invariant (`found` false implies `value` undefined) exactly when the backend's
`data` does; and the mapping passed to `onResults` is the backend's `results`,
every entry unchanged. -/
theorem outcome_invariant_passthrough (data : JsVal) (s : Form)
    (h : (data.get "success").truthy = true) :
    (∃ r : JsVal,
      (QueryProcessor.handleSubmit (AxiosResult.resolved data) s).delivered
        = s.delivered ++ [r] ∧
      r.get "found" = (data.get "data").get "found" ∧
      r.get "value" = (data.get "data").get "value" ∧
      ((r.get "found" = JsVal.bool false → r.get "value" = JsVal.undefined) ↔
        ((data.get "data").get "found" = JsVal.bool false →
          (data.get "data").get "value" = JsVal.undefined))) ∧
    (∃ m : JsVal,
      (PerformanceComparison.handleSubmit (AxiosResult.resolved data) s).delivered
        = s.delivered ++ [m] ∧
      ∀ engine : String, m.get engine = (data.get "results").get engine) := by
  have hf := QueryProcessor.get_resultWithStats data "found" (by decide)
  have hv := QueryProcessor.get_resultWithStats data "value" (by decide)
  refine ⟨⟨QueryProcessor.resultWithStats data, QueryProcessor.delivered_of_success data s h,
    hf, hv, ?_⟩, ⟨data.get "results", PerformanceComparison.results_delivered_of_success data s h,
    fun _ => rfl⟩⟩
  rw [hf, hv]

/-- C19, amended, on a payload that omits `value`: the delivered outcome has
`found` false and `value` undefined. -/
theorem outcome_invariant_passthrough_witness :
    ∃ r : JsVal,
      (QueryProcessor.handleSubmit (AxiosResult.resolved
        (JsVal.obj [("success", JsVal.bool true),
          ("data", JsVal.obj [("found", JsVal.bool false)])]))
        ⟨false, JsVal.null, []⟩).delivered = [r] ∧
      r.get "found" = JsVal.bool false ∧ r.get "value" = JsVal.undefined := by
  obtain ⟨⟨r, hd, hf, hv, -⟩, -⟩ := outcome_invariant_passthrough
    (JsVal.obj [("success", JsVal.bool true),
      ("data", JsVal.obj [("found", JsVal.bool false)])])
    ⟨false, JsVal.null, []⟩ rfl
  exact ⟨r, hd, hf.trans rfl, hv.trans rfl⟩

/-! ## The two formatters side by side -/

namespace OptimizationPanel

/-- C21: the code at the failing input.  On the already formatted string
`"1.5ms"` the aggregate-stats `formatDuration` returns `"NaNs"`, which contains
`"NaN"` and is not the argument, while the per-query `formatDuration` returns
the argument unchanged; so the panel shows `"NaNs"` for a snapshot whose
`AverageTime` is that string. -/
theorem aggregate_formatted_string (render : ℚ → String) :
    formatDuration render (JsVal.str "1.5ms") = some "NaNs" ∧
    App.formatDuration render (JsVal.str "1.5ms") = JsVal.str "1.5ms" ∧
    "NaNs" ≠ "1.5ms" ∧
    "NaN".toList <+: "NaNs".toList ∧
    durationText render
      (JsVal.obj [("optimizer_stats", JsVal.obj [("AverageTime", JsVal.str "1.5ms")])])
      ("optimizer_stats", "AverageTime") = some "NaNs" :=
  ⟨aggregate_of_nan render "1.5ms" (by decide) (by rfl), rfl, by decide, by decide,
   aggregate_of_nan render "1.5ms" (by decide) (by rfl)⟩

/-- C22, as stated, fails.  At 1205 ns the per-query `formatDuration` divides
by 1000 and gets the binary64 number just above 1.205, written `"1.21μs"`; the
aggregate-stats `formatDuration` divides by 1000000 and multiplies by 1000 and
gets the binary64 number just below 1.205, written `"1.20μs"`. -/
theorem formatters_agree_counterexample :
    App.formatDuration (fun _ => "") (JsVal.num 1205) = JsVal.str "1.21μs" ∧
    formatDuration (fun _ => "") (JsVal.num 1205) = some "1.20μs" ∧
    "1.21μs" ≠ "1.20μs" := by
  have ha : Js.round64 ((1205 : ℚ) / 1000)
      = Js.JsNum.fin (678354693872681 / 562949953421312) :=
    Js.round64_of _ _ 0 5426837550981448 (by norm_num) (by norm_num) (by norm_num)
      (by norm_num) (by norm_num [abs_lt]) (by norm_num [abs_lt])
  have hfa : Js.toFixed2 (fun _ => "") (678354693872681 / 562949953421312) = Js.fixed2 121 :=
    Js.toFixed2_eq _ _ _ (by norm_num) (by norm_num) (by norm_num) (by norm_num)
  have hr₁ : Js.round64 ((1205 : ℚ) / 1000000)
      = Js.JsNum.fin (2778540826102501 / 2305843009213693952) :=
    Js.round64_of _ _ (-10) 5557081652205002 (by norm_num) (by norm_num) (by norm_num)
      (by norm_num) (by norm_num [abs_lt]) (by norm_num [abs_lt])
  have hr₂ : Js.round64 ((2778540826102501 / 2305843009213693952 : ℚ) * 1000)
      = Js.JsNum.fin (5426837550981447 / 4503599627370496) :=
    Js.round64_of _ _ 0 5426837550981447 (by norm_num) (by norm_num) (by norm_num)
      (by norm_num) (by norm_num [abs_lt]) (by norm_num [abs_lt])
  have hfp : Js.toFixed2 (fun _ => "") (5426837550981447 / 4503599627370496) = Js.fixed2 120 :=
    Js.toFixed2_eq _ _ _ (by norm_num) (by norm_num) (by norm_num) (by norm_num)
  refine ⟨?_, ?_, by decide⟩
  · rw [App.formatDuration_of_ge _ _ (by norm_num), if_pos (by norm_num), ha]
    simp only [Js.JsNum.toFixed2, hfa]
    rfl
  · rw [aggregate_num _ _ _ (by norm_num) hr₁, if_pos (by norm_num), hr₂]
    simp only [Js.JsNum.toFixed2, hfp]
    rfl

/-- C22, amended. For every integer number of nanoseconds `n` with
`1000000 ≤ n < 1000000000` the per-query `formatDuration` and the
aggregate-stats `formatDuration` return the same string; so when the field
`AverageOptimizationTime` holds `n` both in the statistics of a query result and
in the snapshot of the panel, the two surfaces show the same text.  For
`1000 ≤ n < 1000000` both return a number of hundredths with two decimal places
followed by `"μs"`, each a hundredth nearest to `n / 1000`, and the two numbers
of hundredths differ by at most one. -/
theorem formatters_agree (render : ℚ → String) (n : ℕ) :
    (1000000 ≤ n → n < 1000000000 →
      ∃ s : String,
        App.formatDuration render (JsVal.num (n : ℚ)) = JsVal.str s ∧
        formatDuration render (JsVal.num (n : ℚ)) = some s ∧
        ∀ stats snapshot : JsVal,
          stats.get "AverageOptimizationTime" = JsVal.num (n : ℚ) →
          field snapshot ("optimization_stats", "AverageOptimizationTime")
            = JsVal.num (n : ℚ) →
          App.formatDuration render (stats.get "AverageOptimizationTime") = JsVal.str s ∧
          durationText render snapshot ("optimization_stats", "AverageOptimizationTime")
            = some s) ∧
    (1000 ≤ n → n < 1000000 →
      ∃ a p : ℕ,
        App.formatDuration render (JsVal.num (n : ℚ)) =
          JsVal.str (toString (a / 100) ++ "." ++ toString (a % 100 / 10)
            ++ toString (a % 10) ++ "μs") ∧
        formatDuration render (JsVal.num (n : ℚ)) =
          some (toString (p / 100) ++ "." ++ toString (p % 100 / 10)
            ++ toString (p % 10) ++ "μs") ∧
        |(a : ℚ) / 100 - (n : ℚ) / 1000| ≤ 1 / 200 ∧
        |(p : ℚ) / 100 - (n : ℚ) / 1000| ≤ 1 / 200 ∧
        a ≤ p + 1 ∧ p ≤ a + 1) := by
  constructor
  · intro h₁ h₂
    have hge : (1000000 : ℚ) ≤ (n : ℚ) := by exact_mod_cast h₁
    have hne : (n : ℚ) ≠ 0 := by linarith
    have hq₁ : ¬ ((n : ℚ) < 1000) := by linarith
    have hq₂ : ¬ ((n : ℚ) < 1000000) := by linarith
    obtain ⟨r, k, hr, hr₁, hr₂, -, -⟩ :=
      Js.millionth_fixed render n h₁ (lt_trans h₂ (by norm_num))
    have ha : App.formatDuration render (JsVal.num (n : ℚ))
        = JsVal.str (Js.toFixed2 render r ++ "ms") := by
      simp only [App.formatDuration_of_ge render _ hq₁, if_neg hq₂, hr, Js.JsNum.toFixed2]
    have hp : formatDuration render (JsVal.num (n : ℚ))
        = some (Js.toFixed2 render r ++ "ms") := by
      rw [aggregate_num render _ r hne hr, if_neg (not_lt.mpr hr₁), if_pos (hr₂ h₂)]
    refine ⟨_, ha, hp, fun stats snapshot hst hsn => ?_⟩
    rw [hst, durationText, hsn]
    exact ⟨ha, hp⟩
  · intro h₁ h₂
    have hge : (1000 : ℚ) ≤ (n : ℚ) := by exact_mod_cast h₁
    have hlt : (n : ℚ) < 1000000 := by exact_mod_cast h₂
    have hne : (n : ℚ) ≠ 0 := by linarith
    have hq₁ : ¬ ((n : ℚ) < 1000) := by linarith
    obtain ⟨r, a, hr, hfa, ha⟩ := Js.thousandth_fixed render n h₁ h₂
    obtain ⟨r₁, r₂, p, hr₁, hlt₁, hr₂, hfp, hp⟩ :=
      Js.millionth_thousand_fixed render n (lt_of_lt_of_le (by norm_num) h₁) h₂
    refine ⟨a, p, ?_, ?_, ha, hp, ?_, ?_⟩
    · simp only [App.formatDuration_of_ge render _ hq₁, if_pos hlt, hr, Js.JsNum.toFixed2,
        hfa, Js.fixed2]
    · rw [aggregate_num render _ r₁ hne hr₁, if_pos hlt₁, hr₂]
      simp only [Js.JsNum.toFixed2, hfp, Js.fixed2]
    · have h₃ := (abs_le.mp ha).2
      have h₄ := (abs_le.mp hp).1
      have : (a : ℚ) < (p : ℚ) + 2 := by linarith
      have : a < p + 2 := by exact_mod_cast this
      omega
    · have h₃ := (abs_le.mp hp).2
      have h₄ := (abs_le.mp ha).1
      have : (p : ℚ) < (a : ℚ) + 2 := by linarith
      have : p < a + 2 := by exact_mod_cast this
      omega

/-- C22, amended, at 2500000 ns, where the two formatters return the same
string, and at 1500 ns, where both return a microseconds rendering. -/
theorem formatters_agree_witness :
    (∃ s : String,
      App.formatDuration (fun _ => "") (JsVal.num ((2500000 : ℕ) : ℚ)) = JsVal.str s ∧
      formatDuration (fun _ => "") (JsVal.num ((2500000 : ℕ) : ℚ)) = some s) ∧
    (∃ a p : ℕ,
      App.formatDuration (fun _ => "") (JsVal.num ((1500 : ℕ) : ℚ)) =
        JsVal.str (toString (a / 100) ++ "." ++ toString (a % 100 / 10)
          ++ toString (a % 10) ++ "μs") ∧
      formatDuration (fun _ => "") (JsVal.num ((1500 : ℕ) : ℚ)) =
        some (toString (p / 100) ++ "." ++ toString (p % 100 / 10)
          ++ toString (p % 10) ++ "μs") ∧
      a ≤ p + 1 ∧ p ≤ a + 1) := by
  obtain ⟨s, ha, hp, -⟩ :=
    (formatters_agree (fun _ => "") 2500000).1 (by decide) (by decide)
  obtain ⟨a, p, ha', hp', -, -, h₁, h₂⟩ :=
    (formatters_agree (fun _ => "") 1500).2 (by decide) (by decide)
  exact ⟨⟨s, ha, hp⟩, ⟨a, p, ha', hp', h₁, h₂⟩⟩

end OptimizationPanel
